import Mathlib

/-!
Verification of the Universal_IR_Remote protocol codec engine.

This file gives a shallow embedding, in Lean 4, of the IR decoding and
encoding code of the repository (components/ir_control): the timing
matcher, the per-protocol decoders, the universal pulse
distance/width decoder, the receive pipeline (noise filter, gap trim,
tiered dispatch, multi-frame verification) and the Carrier/Voltas AC
state encoder.  Machine integers are modelled as Nat with explicit
`% 2^w` where the C code can overflow; C functions that can fail
return Option/Except; the two pieces of mutable state (the last NEC
code and the learning verification buffer) are passed explicitly.
Times are the millisecond values the code derives from
esp_timer_get_time()/1000.

Theorems about the frozen specification claims follow the definitions.
-/

set_option maxRecDepth 10000

/-- One captured RMT symbol: `level0/duration0` is the mark half,
`level1/duration1` the space half (`rmt_symbol_word_t`). -/
structure RmtSymbol where
  level0 : Nat
  duration0 : Nat
  level1 : Nat
  duration1 : Nat
deriving DecidableEq, Repr

instance : Inhabited RmtSymbol := ⟨⟨0, 0, 0, 0⟩⟩

/-- The `ir_protocol_t` enumeration from ir_control.h. -/
inductive IrProtocol where
  | unknown
  | nec
  | samsung
  | sony
  | jvc
  | rc5
  | rc6
  | lg
  | denon
  | sharp
  | panasonic
  | kaseikyo
  | apple
  | onkyo
  | samsung48
  | samsunglg
  | lg2
  | mitsubishi
  | daikin
  | fujitsu
  | haier
  | midea
  | carrier
  | hitachi
  | whynter
  | legoPf
  | magiquest
  | bosewave
  | bangOlufsen
  | fast
  | pulseDistance
  | pulseWidth
  | raw
deriving DecidableEq, Repr

/-- The esp_err_t values the decoders actually return. -/
inductive EspErr where
  | invalidArg    -- ESP_ERR_INVALID_ARG
  | fail          -- ESP_FAIL
  | invalidState  -- ESP_ERR_INVALID_STATE
  | invalidCrc    -- ESP_ERR_INVALID_CRC
  | notSupported  -- ESP_ERR_NOT_SUPPORTED
deriving DecidableEq, Repr

/-- The `ir_code_t` structure.  `rawData` models the malloc'd symbol
buffer (empty list = NULL pointer).  A freshly memset code is
`IrCode.zero` below. -/
structure IrCode where
  protocol : IrProtocol
  data : Nat               -- uint32_t
  bits : Nat               -- uint16_t
  rawData : List RmtSymbol
  rawLength : Nat          -- uint16_t
  address : Nat            -- uint16_t
  command : Nat            -- uint16_t
  flags : Nat              -- uint8_t
  carrierFreqHz : Nat      -- uint32_t
  dutyCyclePercent : Nat   -- uint8_t
  repeatCount : Nat        -- uint8_t
  repeatPeriodMs : Nat     -- uint16_t
  validationStatus : Nat   -- uint8_t
deriving DecidableEq, Repr

/-- A memset-zero `ir_code_t` (protocol 0 = UNKNOWN, NULL raw buffer). -/
def IrCode.zero : IrCode :=
  { protocol := .unknown, data := 0, bits := 0, rawData := [], rawLength := 0,
    address := 0, command := 0, flags := 0, carrierFreqHz := 0,
    dutyCyclePercent := 0, repeatCount := 0, repeatPeriodMs := 0,
    validationStatus := 0 }

instance : Inhabited IrCode := ⟨IrCode.zero⟩

/-- ir_timing.c, `ir_timing_matches_percent`.  All three parameters and
all intermediate values are C `uint16_t`; the tolerance product, the
lower bound `expected - tolerance` and the upper bound
`expected + tolerance` are therefore reduced `% 2^16` exactly as the
C conversions do. -/
def ir_timing_matches_percent (measured_us expected_us tolerance_percent : Nat) : Bool :=
  let tolerance_us := (expected_us * tolerance_percent / 100) % 65536
  let lower_bound := (expected_us + 65536 - tolerance_us) % 65536
  let upper_bound := (expected_us + tolerance_us) % 65536
  decide (lower_bound ≤ measured_us) && decide (measured_us ≤ upper_bound)

/-- ir_timing.c, `ir_timing_matches` (default 25% tolerance). -/
def ir_timing_matches (measured_us expected_us : Nat) : Bool :=
  ir_timing_matches_percent measured_us expected_us 25

/-- ir_timing.c, `ir_match_mark` (tolerance 0 selects the default 25%).
The NULL-pointer guard has no counterpart: symbols are values here. -/
def ir_match_mark (symbol : RmtSymbol) (expected_us tolerance_percent : Nat) : Bool :=
  let tol := if tolerance_percent = 0 then 25 else tolerance_percent
  ir_timing_matches_percent symbol.duration0 expected_us tol

/-- ir_timing.c, `ir_match_space` (tolerance 0 selects the default 25%). -/
def ir_match_space (symbol : RmtSymbol) (expected_us tolerance_percent : Nat) : Bool :=
  let tol := if tolerance_percent = 0 then 25 else tolerance_percent
  ir_timing_matches_percent symbol.duration1 expected_us tol

/-- ir_control.c, the local `timing_matches` helper (uint32_t
arithmetic, strict bounds, absolute tolerance in µs). -/
def timing_matches (actual expected tolerance : Nat) : Bool :=
  decide ((expected + 4294967296 - tolerance) % 4294967296 < actual) &&
  decide (actual < (expected + tolerance) % 4294967296)

/-- IR code flag constants (ir_control.h). -/
def IR_FLAG_REPEAT : Nat := 0x01

def IR_FLAG_PARITY_FAILED : Nat := 0x04

def IR_FLAG_TOGGLE_BIT : Nat := 0x08

def IR_FLAG_EXTENDED : Nat := 0x20

def IR_FLAG_MSB_FIRST : Nat := 0x80

/-- Validation status constants (ir_control.h). -/
def IR_VALIDATION_SINGLE_FRAME : Nat := 0x01

def IR_VALIDATION_TWO_FRAMES : Nat := 0x02

def IR_VALIDATION_THREE_FRAMES : Nat := 0x03

def IR_VALIDATION_NOISE_FILTERED : Nat := 0x10

def IR_VALIDATION_GAP_TRIMMED : Nat := 0x20

/-- The module-level mutable state used by the NEC decoder for repeat
resolution: `last_nec_code` and `last_nec_code_time` (ms). -/
structure NecState where
  last : IrCode
  lastTime : Nat
deriving DecidableEq, Repr

/-- The state at program start: both statics are zero-initialised. -/
def NecState.init : NecState := { last := IrCode.zero, lastTime := 0 }

/-- The 32-bit data loop of `decode_nec_protocol` (ir_control.c lines
209-241).  `fuel` counts the remaining bits, `i` is the current bit
index; `none` is the ESP_ERR_INVALID_ARG return. -/
def nec_decode_bits (syms : List RmtSymbol) (num_symbols : Nat) :
    Nat → Nat → Nat → Option Nat
  | 0, _, acc => some acc
  | fuel + 1, i, acc =>
    let symbol_idx := i + 1
    if num_symbols ≤ symbol_idx then none
    else
      let symbol := syms.getD symbol_idx default
      if symbol.level0 ≠ 1 ∨ symbol.level1 ≠ 0 then none
      else if ! timing_matches symbol.duration0 560 300 then none
      else if timing_matches symbol.duration1 1690 300 then
        nec_decode_bits syms num_symbols fuel (i + 1) (acc ||| (1 <<< i))
      else if ! timing_matches symbol.duration1 560 300 then none
      else nec_decode_bits syms num_symbols fuel (i + 1) acc

/-- ir_control.c, `decode_nec_protocol`.  `now` is the current time in
ms (`esp_timer_get_time()/1000`); the NEC repeat state is passed and
returned explicitly.  The uint64 time difference is reduced `% 2^64`
as the C subtraction does. -/
def decode_nec_protocol (st : NecState) (now : Nat) (syms : List RmtSymbol) :
    Except EspErr IrCode × NecState :=
  let num_symbols := syms.length
  if num_symbols < 34 then (.error .invalidArg, st)
  else
    let s0 := syms.getD 0 default
    if ! timing_matches s0.duration0 9000 300 then (.error .invalidArg, st)
    else if ! timing_matches s0.duration1 4500 300 then
      if timing_matches s0.duration1 2250 300 then
        let time_since_last := (now + 18446744073709551616 - st.lastTime) % 18446744073709551616
        if st.last.protocol = IrProtocol.nec ∧ time_since_last < 200 then
          let code := { st.last with flags := st.last.flags ||| IR_FLAG_REPEAT }
          (.ok code, { st with lastTime := now })
        else (.error .invalidState, st)
      else (.error .invalidArg, st)
    else
      match nec_decode_bits syms num_symbols 32 0 0 with
      | none => (.error .invalidArg, st)
      | some decoded_data =>
        let address := decoded_data &&& 0xFF
        let address_inv := (decoded_data >>> 8) &&& 0xFF
        let command := (decoded_data >>> 16) &&& 0xFF
        let command_inv := (decoded_data >>> 24) &&& 0xFF
        if (command ^^^ command_inv) ≠ 0xFF then (.error .invalidCrc, st)
        else
          let is_extended := (address ^^^ address_inv) ≠ 0xFF
          let full_address := if is_extended then address ||| (address_inv <<< 8) else address
          let code : IrCode :=
            { IrCode.zero with
              protocol := .nec, data := decoded_data, bits := 32,
              address := full_address, command := command,
              flags := if is_extended then IR_FLAG_EXTENDED else 0 }
          (.ok code, { last := code, lastTime := now })

/-- ir_control.c, `decode_samsung_protocol`.  The 32-bit loop is
literally the NEC payload loop (same constants, lines 322-343), so it
reuses `nec_decode_bits`.  Only protocol/data/bits and the raw fields
are assigned; address, command and flags keep the caller's memset
zeros. -/
def decode_samsung_protocol (syms : List RmtSymbol) : Except EspErr IrCode :=
  let num_symbols := syms.length
  if num_symbols < 34 then .error .invalidArg
  else
    let s0 := syms.getD 0 default
    if ! timing_matches s0.duration0 4500 300 then .error .invalidArg
    else if ! timing_matches s0.duration1 4500 300 then .error .invalidArg
    else
      match nec_decode_bits syms num_symbols 32 0 0 with
      | none => .error .invalidArg
      | some decoded_data =>
        .ok { IrCode.zero with protocol := .samsung, data := decoded_data, bits := 32 }

/-- The Sony data-bit loop (ir_sony.c lines 70-98): pulse-width
encoding, bit from the mark duration, space always ~600µs, packed LSB
first.  `i` is the bit index; the symbol read is `symbols[i+1]`. -/
def sony_decode_bits (syms : List RmtSymbol) : Nat → Nat → Nat → Option Nat
  | 0, _, acc => some acc
  | fuel + 1, i, acc =>
    let sym := syms.getD (i + 1) default
    if ! ir_match_space sym 600 0 then none
    else
      let mark_us := sym.duration0
      if ir_timing_matches mark_us 1200 then
        sony_decode_bits syms fuel (i + 1) (acc ||| (1 <<< i))
      else if ir_timing_matches mark_us 600 then
        sony_decode_bits syms fuel (i + 1) acc
      else none

/-- ir_sony.c, `ir_decode_sony`.  The variant (12/15/20 bits) is
selected purely from the total symbol count (13/16/21); there is no
stop bit. -/
def ir_decode_sony (syms : List RmtSymbol) : Except EspErr IrCode :=
  let num_symbols := syms.length
  let num_bits? : Option Nat :=
    if num_symbols = 13 then some 12
    else if num_symbols = 16 then some 15
    else if num_symbols = 21 then some 20
    else none
  match num_bits? with
  | none => .error .invalidArg
  | some num_bits =>
    let s0 := syms.getD 0 default
    if ! ir_match_mark s0 2400 0 then .error .fail
    else if ! ir_match_space s0 600 0 then .error .fail
    else
      match sony_decode_bits syms num_bits 0 0 with
      | none => .error .fail
      | some decoded_data =>
        .ok { IrCode.zero with
              protocol := .sony, data := decoded_data, bits := num_bits,
              command := decoded_data &&& 0x7F, address := decoded_data >>> 7 }

/-- ir_rc5.c, `decode_rc5_bit`: one Manchester bit (both halves
~889µs at 25%); the bit value is the direction (level0).  Returns the
bit and the advanced index, `none` is ESP_FAIL. -/
def decode_rc5_bit (syms : List RmtSymbol) (num_symbols idx : Nat) : Option (Nat × Nat) :=
  if num_symbols ≤ idx then none
  else
    let sym := syms.getD idx default
    if ir_timing_matches_percent sym.duration0 889 25 &&
       ir_timing_matches_percent sym.duration1 889 25 then
      some (if sym.level0 = 0 then 0 else 1, idx + 1)
    else none

/-- The 14-bit MSB-first loop of `ir_decode_rc5` (uint16
accumulator). -/
def rc5_decode_loop (syms : List RmtSymbol) (num_symbols : Nat) :
    Nat → Nat → Nat → Option Nat
  | 0, _, acc => some acc
  | fuel + 1, idx, acc =>
    match decode_rc5_bit syms num_symbols idx with
    | none => none
    | some (b, idx') => rc5_decode_loop syms num_symbols fuel idx' (((acc <<< 1) ||| b) % 65536)

/-- ir_rc5.c, `ir_decode_rc5`. -/
def ir_decode_rc5 (syms : List RmtSymbol) : Except EspErr IrCode :=
  let num_symbols := syms.length
  if num_symbols < 14 then .error .invalidArg
  else
    match rc5_decode_loop syms num_symbols 14 0 0 with
    | none => .error .fail
    | some decoded_value =>
      let toggle_bit := (decoded_value >>> 11) &&& 0x01
      .ok { IrCode.zero with
            protocol := .rc5, bits := 14,
            address := (decoded_value >>> 6) &&& 0x1F,
            command := decoded_value &&& 0x3F,
            data := decoded_value,
            flags := if toggle_bit ≠ 0 then IR_FLAG_TOGGLE_BIT else 0 }

/-- ir_rc6.c, `decode_rc6_bit`: one RC6 bi-phase bit with 30%
tolerance; the trailer (toggle) bit is double length (888µs halves
instead of 444µs). -/
def decode_rc6_bit (syms : List RmtSymbol) (num_symbols idx : Nat) (is_trailer : Bool) :
    Option (Nat × Nat) :=
  if num_symbols ≤ idx then none
  else
    let sym := syms.getD idx default
    let expected_duration := if is_trailer then 888 else 444
    if ir_timing_matches_percent sym.duration0 expected_duration 30 &&
       ir_timing_matches_percent sym.duration1 expected_duration 30 then
      some (if sym.level0 = 0 then 0 else 1, idx + 1)
    else none

/-- An MSB-first run of `count` ordinary RC6 bits (the mode, address
and command loops of `ir_decode_rc6`). -/
def rc6_decode_bits (syms : List RmtSymbol) (num_symbols : Nat) :
    Nat → Nat → Nat → Option (Nat × Nat)
  | 0, idx, acc => some (acc, idx)
  | fuel + 1, idx, acc =>
    match decode_rc6_bit syms num_symbols idx false with
    | none => none
    | some (b, idx') => rc6_decode_bits syms num_symbols fuel idx' (((acc <<< 1) ||| b) % 256)

/-- ir_rc6.c, `ir_decode_rc6` (mode-0 frame: leader, start bit, 3 mode
bits, double-length toggle bit, 8 address bits, 8 command bits). -/
def ir_decode_rc6 (syms : List RmtSymbol) : Except EspErr IrCode :=
  let num_symbols := syms.length
  if num_symbols < 20 then .error .invalidArg
  else
    let s0 := syms.getD 0 default
    if ! (ir_match_mark s0 2664 0 && ir_match_space s0 888 0) then .error .fail
    else
      match decode_rc6_bit syms num_symbols 1 false with
      | none => .error .fail
      | some (start_bit, idx1) =>
        if start_bit ≠ 1 then .error .fail
        else
          match rc6_decode_bits syms num_symbols 3 idx1 0 with
          | none => .error .fail
          | some (mode, idx2) =>
            match decode_rc6_bit syms num_symbols idx2 true with
            | none => .error .fail
            | some (toggle_bit, idx3) =>
              match rc6_decode_bits syms num_symbols 8 idx3 0 with
              | none => .error .fail
              | some (address, idx4) =>
                match rc6_decode_bits syms num_symbols 8 idx4 0 with
                | none => .error .fail
                | some (command, _) =>
                  .ok { IrCode.zero with
                        protocol := .rc6, bits := 20,
                        address := address, command := command,
                        data := (mode <<< 17) ||| (toggle_bit <<< 16) |||
                                (address <<< 8) ||| command,
                        flags := if toggle_bit ≠ 0 then IR_FLAG_TOGGLE_BIT else 0 }

/-- The LSB-first pulse-distance bit loop shared verbatim (modulo
constants) by the JVC, LG, Denon, Panasonic, Samsung48, Apple and FAST
decoders: mark must match `bitMark`, a space matching `oneSpace` sets
bit `i`, a space matching neither `oneSpace` nor `zeroSpace` fails.
The symbol read for bit `i` is `symbols[start + i]`. -/
def decode_pd_bits_lsb (syms : List RmtSymbol) (start bitMark oneSpace zeroSpace : Nat) :
    Nat → Nat → Nat → Option Nat
  | 0, _, acc => some acc
  | fuel + 1, i, acc =>
    let sym := syms.getD (start + i) default
    if ! ir_match_mark sym bitMark 0 then none
    else if ir_match_space sym oneSpace 0 then
      decode_pd_bits_lsb syms start bitMark oneSpace zeroSpace fuel (i + 1) (acc ||| (1 <<< i))
    else if ! ir_match_space sym zeroSpace 0 then none
    else decode_pd_bits_lsb syms start bitMark oneSpace zeroSpace fuel (i + 1) acc

/-- ir_jvc.c, `ir_decode_jvc`: accepts header-present (17 symbols) and
headerless repeat (16 symbols) frames, explicitly rejecting NEC-like
headers (±25% envelope) with ESP_ERR_NOT_SUPPORTED. -/
def ir_decode_jvc (syms : List RmtSymbol) : Except EspErr IrCode :=
  let num_symbols := syms.length
  let s0 := syms.getD 0 default
  if num_symbols > 16 ∧
     (6750 < s0.duration0 ∧ s0.duration0 < 11250 ∧
      3375 < s0.duration1 ∧ s0.duration1 < 5625) then .error .notSupported
  else
    let has_header := num_symbols ≥ 17 &&
      ir_match_mark s0 8400 0 && ir_match_space s0 4200 0
    let data_start := if has_header then 1 else 0
    let expected_symbols := if has_header then 17 else 16
    if num_symbols < expected_symbols then .error .invalidArg
    else if num_symbols > expected_symbols + 2 then .error .invalidArg
    else if (!has_header) ∧ num_symbols > 18 then .error .invalidArg
    else
      match decode_pd_bits_lsb syms data_start 525 1575 525 16 0 0 with
      | none => .error .fail
      | some decoded_data =>
        .ok { IrCode.zero with
              protocol := .jvc, data := decoded_data, bits := 16,
              address := decoded_data &&& 0xFF,
              command := (decoded_data >>> 8) &&& 0xFF,
              flags := if has_header then 0 else IR_FLAG_REPEAT }

/-- ir_lg.c, `ir_decode_lg`: 28 bits LSB first with a nibble-sum
checksum; a checksum mismatch is recorded as IR_FLAG_PARITY_FAILED,
decode still succeeds. -/
def ir_decode_lg (syms : List RmtSymbol) : Except EspErr IrCode :=
  let num_symbols := syms.length
  if num_symbols < 29 then .error .invalidArg
  else
    let s0 := syms.getD 0 default
    if ! (ir_match_mark s0 9000 0 && ir_match_space s0 4500 0) then .error .fail
    else
      match decode_pd_bits_lsb syms 1 560 1690 560 28 0 0 with
      | none => .error .fail
      | some decoded_data =>
        let address := decoded_data &&& 0xFF
        let command := (decoded_data >>> 8) &&& 0xFFFF
        let checksum_received := (decoded_data >>> 24) &&& 0x0F
        let checksum_calc :=
          ((address &&& 0x0F) + (address >>> 4) + (command &&& 0x0F) +
           ((command >>> 4) &&& 0x0F) + ((command >>> 8) &&& 0x0F) +
           ((command >>> 12) &&& 0x0F)) &&& 0x0F
        .ok { IrCode.zero with
              protocol := .lg, data := decoded_data, bits := 28,
              address := address, command := command,
              flags := if checksum_received ≠ checksum_calc then IR_FLAG_PARITY_FAILED else 0 }

/-- ir_denon.c, `ir_decode_denon`: 15 bits LSB first. -/
def ir_decode_denon (syms : List RmtSymbol) : Except EspErr IrCode :=
  let num_symbols := syms.length
  if num_symbols < 16 then .error .invalidArg
  else
    let s0 := syms.getD 0 default
    if ! (ir_match_mark s0 275 0 && ir_match_space s0 775 0) then .error .fail
    else
      match decode_pd_bits_lsb syms 1 275 1900 775 15 0 0 with
      | none => .error .fail
      | some decoded_data =>
        .ok { IrCode.zero with
              protocol := .denon, data := decoded_data, bits := 15,
              address := decoded_data &&& 0x1F,
              command := (decoded_data >>> 5) &&& 0xFF }

/-- ir_panasonic.c, `ir_decode_panasonic`: 48 bits LSB first; only the
low 32 bits are stored in the uint32 `data` field. -/
def ir_decode_panasonic (syms : List RmtSymbol) : Except EspErr IrCode :=
  let num_symbols := syms.length
  if num_symbols < 49 then .error .invalidArg
  else
    let s0 := syms.getD 0 default
    if ! (ir_match_mark s0 3456 0 && ir_match_space s0 1728 0) then .error .fail
    else
      match decode_pd_bits_lsb syms 1 432 1296 432 48 0 0 with
      | none => .error .fail
      | some decoded_data =>
        .ok { IrCode.zero with
              protocol := .panasonic, data := decoded_data &&& 0xFFFFFFFF, bits := 48,
              address := (decoded_data >>> 32) &&& 0xFFFF,
              command := decoded_data &&& 0xFFFF }

/-- ir_samsung48.c, `ir_decode_samsung48`: 48 bits LSB first. -/
def ir_decode_samsung48 (syms : List RmtSymbol) : Except EspErr IrCode :=
  let num_symbols := syms.length
  if num_symbols < 49 then .error .invalidArg
  else
    let s0 := syms.getD 0 default
    if ! (ir_match_mark s0 4500 0 && ir_match_space s0 4500 0) then .error .fail
    else
      match decode_pd_bits_lsb syms 1 560 1690 560 48 0 0 with
      | none => .error .fail
      | some decoded_data =>
        .ok { IrCode.zero with
              protocol := .samsung48, data := decoded_data &&& 0xFFFFFFFF, bits := 48,
              address := (decoded_data >>> 32) &&& 0xFFFF,
              command := decoded_data &&& 0xFFFF }

/-- ir_apple.c, `ir_decode_apple`: NEC timing, 32 bits, must carry the
Apple address 0x77E1 in the low 16 bits. -/
def ir_decode_apple (syms : List RmtSymbol) : Except EspErr IrCode :=
  let num_symbols := syms.length
  if num_symbols < 33 then .error .invalidArg
  else
    let s0 := syms.getD 0 default
    if ! (ir_match_mark s0 9000 0 && ir_match_space s0 4500 0) then .error .fail
    else
      match decode_pd_bits_lsb syms 1 560 1690 560 32 0 0 with
      | none => .error .fail
      | some decoded_data =>
        let address := decoded_data &&& 0xFFFF
        if address ≠ 0x77E1 then .error .fail
        else
          .ok { IrCode.zero with
                protocol := .apple, data := decoded_data, bits := 32,
                address := address, command := (decoded_data >>> 16) &&& 0xFF }

/-- One byte of the LSB-first byte loop shared by the Midea, Haier,
Mitsubishi, Carrier, Hitachi, Fujitsu and Daikin decoders.  `checkLen`
models the `symbol_idx >= num_symbols` break that only the Hitachi and
Fujitsu loops contain (a break leaves the byte at its current value).
The symbol for bit `bit` of byte `byteIdx` is
`symbols[start + byteIdx*8 + bit]`. -/
def decode_byte_bits (syms : List RmtSymbol) (num_symbols : Nat) (checkLen : Bool)
    (start bitMark oneSpace zeroSpace byteIdx : Nat) : Nat → Nat → Nat → Option Nat
  | 0, _, acc => some acc
  | fuel + 1, bit, acc =>
    let symbol_idx := start + byteIdx * 8 + bit
    if checkLen ∧ num_symbols ≤ symbol_idx then some acc
    else
      let sym := syms.getD symbol_idx default
      if ! ir_match_mark sym bitMark 0 then none
      else if ir_match_space sym oneSpace 0 then
        decode_byte_bits syms num_symbols checkLen start bitMark oneSpace zeroSpace byteIdx
          fuel (bit + 1) (acc ||| (1 <<< bit))
      else if ! ir_match_space sym zeroSpace 0 then none
      else
        decode_byte_bits syms num_symbols checkLen start bitMark oneSpace zeroSpace byteIdx
          fuel (bit + 1) acc

/-- The outer byte loop of the byte-oriented decoders: decodes `fuel`
bytes starting at byte index `byteIdx` and returns them in order. -/
def decode_bytes_lsb (syms : List RmtSymbol) (num_symbols : Nat) (checkLen : Bool)
    (start bitMark oneSpace zeroSpace : Nat) : Nat → Nat → Option (List Nat)
  | 0, _ => some []
  | fuel + 1, byteIdx =>
    match decode_byte_bits syms num_symbols checkLen start bitMark oneSpace zeroSpace
        byteIdx 8 0 0 with
    | none => none
    | some b =>
      match decode_bytes_lsb syms num_symbols checkLen start bitMark oneSpace zeroSpace
          fuel (byteIdx + 1) with
      | none => none
      | some rest => some (b :: rest)

/-- The `data` field assembled from the first four decoded bytes, as
the AC decoders build it. -/
def bytes_to_data32 (data : List Nat) : Nat :=
  data.getD 0 0 ||| (data.getD 1 0 <<< 8) ||| (data.getD 2 0 <<< 16) ||| (data.getD 3 0 <<< 24)

/-- ir_mitsubishi.c: byte-sum checksum over the first len-1 bytes
(uint8 accumulator). -/
def mitsubishi_checksum (data : List Nat) (len : Nat) : Nat :=
  (List.range (len - 1)).foldl (fun sum i => (sum + data.getD i 0) % 256) 0

/-- ir_mitsubishi.c, `ir_decode_mitsubishi`: 19 bytes LSB first; a
checksum mismatch is logged only, decode continues and no flag is
set. -/
def ir_decode_mitsubishi (syms : List RmtSymbol) : Except EspErr IrCode :=
  let num_symbols := syms.length
  if num_symbols < 153 then .error .invalidArg
  else
    let s0 := syms.getD 0 default
    if ! (ir_match_mark s0 3400 0 && ir_match_space s0 1750 0) then .error .fail
    else
      match decode_bytes_lsb syms num_symbols false 1 450 1300 420 19 0 with
      | none => .error .fail
      | some data =>
        .ok { IrCode.zero with
              protocol := .mitsubishi, bits := 152,
              address := 0x23, command := data.getD 5 0,
              data := bytes_to_data32 data }

/-- ir_daikin.c, `daikin_checksum`: uint8 byte sum of `len` bytes. -/
def daikin_checksum (data : List Nat) (len : Nat) : Nat :=
  (List.range len).foldl (fun sum i => (sum + data.getD i 0) % 256) 0

/-- ir_daikin.c, `decode_daikin_frame`: header then `num_bytes` bytes;
returns the bytes and the advanced symbol index. -/
def decode_daikin_frame (syms : List RmtSymbol) (idx num_bytes : Nat) :
    Option (List Nat × Nat) :=
  let s := syms.getD idx default
  if ! (ir_match_mark s 3650 0 && ir_match_space s 1623 0) then none
  else
    match decode_bytes_lsb syms syms.length false (idx + 1) 428 1280 428 num_bytes 0 with
    | none => none
    | some data => some (data, idx + 1 + num_bytes * 8)

/-- ir_daikin.c, `ir_decode_daikin`: two frames (8 and 19 bytes) with
an optional ~29ms gap symbol between them; both checksums are logged
only. -/
def ir_decode_daikin (syms : List RmtSymbol) : Except EspErr IrCode :=
  let num_symbols := syms.length
  if num_symbols < 250 then .error .invalidArg
  else
    match decode_daikin_frame syms 0 8 with
    | none => .error .fail
    | some (_, idx1) =>
      let idx2 :=
        if idx1 < num_symbols ∧ ir_match_space (syms.getD idx1 default) 29000 10 = true then
          idx1 + 1
        else idx1
      match decode_daikin_frame syms idx2 19 with
      | none => .error .fail
      | some (frame2, _) =>
        .ok { IrCode.zero with
              protocol := .daikin, bits := 216,
              address := 0x11, command := frame2.getD 5 0,
              data := bytes_to_data32 frame2 }

/-- ir_fujitsu.c, `fujitsu_checksum`: two's-complement byte sum of the
first len-1 bytes (uint8 accumulator). -/
def fujitsu_checksum (data : List Nat) (len : Nat) : Nat :=
  let sum := (List.range (len - 1)).foldl (fun sum i => (sum + data.getD i 0) % 256) 0
  (0x100 - sum) &&& 0xFF

/-- ir_fujitsu.c, `ir_decode_fujitsu`: variable length, byte count
derived from the symbol count and clamped to [8,16]; checksum logged
only. -/
def ir_decode_fujitsu (syms : List RmtSymbol) : Except EspErr IrCode :=
  let num_symbols := syms.length
  if num_symbols < 65 then .error .invalidArg
  else
    let s0 := syms.getD 0 default
    if ! (ir_match_mark s0 3300 0 && ir_match_space s0 1650 0) then .error .fail
    else
      let available_data_symbols := num_symbols - 1
      let num_bytes0 := (available_data_symbols / 8) % 256
      if num_bytes0 < 8 then .error .fail
      else
        let num_bytes := if num_bytes0 > 16 then 16 else num_bytes0
        match decode_bytes_lsb syms num_symbols true 1 420 1280 420 num_bytes 0 with
        | none => .error .fail
        | some data =>
          .ok { IrCode.zero with
                protocol := .fujitsu, bits := num_bytes * 8,
                address := 0x14,
                command := data.getD (if 5 < num_bytes then 5 else 0) 0,
                data := bytes_to_data32 data }

/-- ir_haier.c, `ir_decode_haier`: 13 bytes LSB first; the XOR
checksum is logged only. -/
def ir_decode_haier (syms : List RmtSymbol) : Except EspErr IrCode :=
  let num_symbols := syms.length
  if num_symbols < 105 then .error .invalidArg
  else
    let s0 := syms.getD 0 default
    if ! (ir_match_mark s0 3000 0 && ir_match_space s0 3000 0) then .error .fail
    else
      match decode_bytes_lsb syms num_symbols false 1 520 1650 650 13 0 with
      | none => .error .fail
      | some data =>
        .ok { IrCode.zero with
              protocol := .haier, bits := 104,
              address := 0xA0, command := data.getD 9 0,
              data := bytes_to_data32 data }

/-- ir_midea.c, `ir_decode_midea`: 6 bytes LSB first; the
inverted-byte validation is logged only. -/
def ir_decode_midea (syms : List RmtSymbol) : Except EspErr IrCode :=
  let num_symbols := syms.length
  if num_symbols < 49 then .error .invalidArg
  else
    let s0 := syms.getD 0 default
    if ! (ir_match_mark s0 4500 0 && ir_match_space s0 4500 0) then .error .fail
    else
      match decode_bytes_lsb syms num_symbols false 1 560 1680 560 6 0 with
      | none => .error .fail
      | some data =>
        .ok { IrCode.zero with
              protocol := .midea, bits := 48,
              address := data.getD 0 0, command := data.getD 1 0,
              data := data.getD 0 0 ||| (data.getD 1 0 <<< 8) ||| (data.getD 2 0 <<< 16) }

/-- ir_carrier.c, `carrier_checksum`: sum of all nibbles (uint16
accumulator), low nibble returned. -/
def carrier_checksum (data : List Nat) (len : Nat) : Nat :=
  ((List.range len).foldl
    (fun sum i => (sum + (data.getD i 0 &&& 0x0F) + ((data.getD i 0 >>> 4) &&& 0x0F)) % 65536)
    0) &&& 0x0F

/-- ir_carrier.c, `ir_decode_carrier`: 16 bytes LSB first; the nibble
checksum is logged only, decode continues and no flag is set. -/
def ir_decode_carrier (syms : List RmtSymbol) : Except EspErr IrCode :=
  let num_symbols := syms.length
  if num_symbols < 129 then .error .invalidArg
  else
    let s0 := syms.getD 0 default
    if ! (ir_match_mark s0 8820 0 && ir_match_space s0 4410 0) then .error .fail
    else
      match decode_bytes_lsb syms num_symbols false 1 420 1260 420 16 0 with
      | none => .error .fail
      | some data =>
        .ok { IrCode.zero with
              protocol := .carrier, bits := 128,
              address := data.getD 0 0, command := data.getD 1 0,
              data := bytes_to_data32 data }

/-- ir_hitachi.c, `hitachi_checksum`: byte sum (uint16 accumulator) of
the first len-1 bytes, reduced `& 0xFF`. -/
def hitachi_checksum (data : List Nat) (len : Nat) : Nat :=
  ((List.range (len - 1)).foldl (fun sum i => (sum + data.getD i 0) % 65536) 0) &&& 0xFF

/-- The result-filling block of `ir_decode_hitachi` (lines 95-106):
decode succeeds with `flags = 0` whether or not the checksum matched. -/
def hitachi_fill (data : List Nat) (num_bytes : Nat) : IrCode :=
  { IrCode.zero with
    protocol := .hitachi, bits := num_bytes * 8,
    address := data.getD 0 0,
    command := data.getD (if 11 < num_bytes then 11 else 1) 0,
    flags := 0,
    data := bytes_to_data32 data }

/-- ir_hitachi.c, `ir_decode_hitachi`: variable length (33-43 bytes);
a checksum failure is logged ("Continue anyway - some variants may
differ") and decoding succeeds without recording any flag. -/
def ir_decode_hitachi (syms : List RmtSymbol) : Except EspErr IrCode :=
  let num_symbols := syms.length
  if num_symbols < 265 then .error .invalidArg
  else
    let s0 := syms.getD 0 default
    if ! (ir_match_mark s0 3300 0 && ir_match_space s0 1700 0) then .error .fail
    else
      let available_data_symbols := num_symbols - 1
      let num_bytes0 := (available_data_symbols / 8) % 256
      if num_bytes0 < 33 then .error .fail
      else
        let num_bytes := if num_bytes0 > 43 then 43 else num_bytes0
        match decode_bytes_lsb syms num_symbols true 1 370 1260 370 num_bytes 0 with
        | none => .error .fail
        | some data => .ok (hitachi_fill data num_bytes)

/-- The MSB-first loop shared by the Whynter, Lego, BoseWave and
MagiQuest decoders: optional mark check, then the bit is 1 exactly
when the space matches `oneSpace` (these loops never fail on a
non-matching space).  `symIdx` starts at the decoder-specific first
data symbol. -/
def decode_msb_loop (syms : List RmtSymbol) (checkMark : Bool) (bitMark oneSpace : Nat) :
    Nat → Nat → Nat → Option Nat
  | 0, _, acc => some acc
  | fuel + 1, symIdx, acc =>
    let sym := syms.getD symIdx default
    if checkMark ∧ ir_match_mark sym bitMark 0 = false then none
    else
      decode_msb_loop syms checkMark bitMark oneSpace fuel (symIdx + 1)
        ((acc <<< 1) ||| (if ir_match_space sym oneSpace 0 then 1 else 0))

/-- ir_whynter.c, `ir_decode_whynter`: 32 bits MSB first, data symbols
at indexes 1..32, no per-bit mark check. -/
def ir_decode_whynter (syms : List RmtSymbol) : Except EspErr IrCode :=
  let num_symbols := syms.length
  if num_symbols < 33 then .error .invalidArg
  else
    let s0 := syms.getD 0 default
    if ! (ir_match_mark s0 2850 0 && ir_match_space s0 2850 0) then .error .fail
    else
      match decode_msb_loop syms false 0 750 32 1 0 with
      | none => .error .fail
      | some decoded_data =>
        .ok { IrCode.zero with
              protocol := .whynter, data := decoded_data, bits := 32,
              flags := IR_FLAG_MSB_FIRST }

/-- ir_lego.c, `ir_decode_lego`: 16 bits MSB first, data symbols at
indexes 1..16, no per-bit mark check. -/
def ir_decode_lego (syms : List RmtSymbol) : Except EspErr IrCode :=
  let num_symbols := syms.length
  if num_symbols < 17 then .error .invalidArg
  else
    let s0 := syms.getD 0 default
    if ! (ir_match_mark s0 158 0 && ir_match_space s0 1026 0) then .error .fail
    else
      match decode_msb_loop syms false 0 553 16 1 0 with
      | none => .error .fail
      | some decoded_data =>
        .ok { IrCode.zero with
              protocol := .legoPf, data := decoded_data, bits := 16,
              flags := IR_FLAG_MSB_FIRST }

/-- ir_magiquest.c, `ir_decode_magiquest`: 56 bits MSB first starting
at symbol 0 (no header), with a per-bit mark check; only the low 32
bits are stored in `data`. -/
def ir_decode_magiquest (syms : List RmtSymbol) : Except EspErr IrCode :=
  let num_symbols := syms.length
  if num_symbols < 56 then .error .invalidArg
  else
    match decode_msb_loop syms true 288 864 56 0 0 with
    | none => .error .fail
    | some decoded_data =>
      .ok { IrCode.zero with
            protocol := .magiquest, data := decoded_data &&& 0xFFFFFFFF, bits := 56,
            flags := IR_FLAG_MSB_FIRST }

/-- ir_bosewave.c, `ir_decode_bosewave`: 16 bits MSB first, data
symbols at indexes 1..16, with a per-bit mark check. -/
def ir_decode_bosewave (syms : List RmtSymbol) : Except EspErr IrCode :=
  let num_symbols := syms.length
  if num_symbols < 17 then .error .invalidArg
  else
    let s0 := syms.getD 0 default
    if ! (ir_match_mark s0 1014 0 && ir_match_space s0 1468 0) then .error .fail
    else
      match decode_msb_loop syms true 428 896 16 1 0 with
      | none => .error .fail
      | some decoded_data =>
        .ok { IrCode.zero with
              protocol := .bosewave, data := decoded_data, bits := 16,
              flags := IR_FLAG_MSB_FIRST }

/-- ir_fast.c, `ir_decode_fast`: 8 bits LSB first starting at symbol 0
(no header). -/
def ir_decode_fast (syms : List RmtSymbol) : Except EspErr IrCode :=
  let num_symbols := syms.length
  if num_symbols < 8 then .error .invalidArg
  else
    match decode_pd_bits_lsb syms 0 320 640 320 8 0 0 with
    | none => .error .fail
    | some decoded_data =>
      .ok { IrCode.zero with protocol := .fast, data := decoded_data, bits := 8 }

/-- The scan loop of `aggregate_array_counts` (ir_distance_width.c
lines 35-82).  The histogram array is threaded explicitly because the
C code clears bins as it reads them and writes each cluster average
back; counts are uint8 and the weighted sum uint16, reduced mod 2^8 /
2^16 as in C.  `none` models the `return false` taken when a third
cluster appears. -/
def aggregate_loop (max_index : Nat) :
    Nat → Nat → List Nat → Nat → Nat → Nat → Nat → Nat →
    Option (List Nat × Nat × Nat)
  | 0, _, arr, _, _, _, short_index, long_index => some (arr, short_index, long_index)
  | fuel + 1, i, arr, sum, weighted_sum, gap_count, short_index, long_index =>
    let current_count := arr.getD i 0
    let arr1 := if current_count ≠ 0 then arr.set i 0 else arr
    let sum1 := if current_count ≠ 0 then (sum + current_count) % 256 else sum
    let wsum1 := if current_count ≠ 0 then (weighted_sum + current_count * i) % 65536
                 else weighted_sum
    let gap1 := if current_count ≠ 0 then 0 else (gap_count + 1) % 256
    if sum1 ≠ 0 ∧ (i = max_index ∨ gap1 > 1) then
      let aggregate_index := ((wsum1 + sum1 / 2) / sum1) % 256
      let arr2 := arr1.set aggregate_index sum1
      if short_index = 0 then
        aggregate_loop max_index fuel (i + 1) arr2 0 0 gap1 aggregate_index long_index
      else if long_index = 0 then
        aggregate_loop max_index fuel (i + 1) arr2 0 0 gap1 short_index aggregate_index
      else none
    else aggregate_loop max_index fuel (i + 1) arr1 sum1 wsum1 gap1 short_index long_index

/-- ir_distance_width.c, `aggregate_array_counts`: scans bins
0..max_index. -/
def aggregate_array_counts (arr : List Nat) (max_index : Nat) :
    Option (List Nat × Nat × Nat) :=
  aggregate_loop max_index (max_index + 1) 0 arr 0 0 0 0 0

/-- The histogram-building loops of `ir_decode_distance_width` (lines
164-199): 50µs bins over symbols 1..num_symbols-2 (header and stop
excluded); a duration at or beyond bin 200 aborts with ESP_FAIL
(`none`).  `selectMark` picks duration0 (marks) or duration1
(spaces). -/
def build_histogram (syms : List RmtSymbol) (selectMark : Bool) :
    Nat → Nat → List Nat → Nat → Option (List Nat × Nat)
  | 0, _, arr, maxIdx => some (arr, maxIdx)
  | fuel + 1, i, arr, maxIdx =>
    let s := syms.getD i default
    let d := if selectMark then s.duration0 else s.duration1
    let bin_index := d / 50
    if bin_index < 200 then
      build_histogram syms selectMark fuel (i + 1)
        (arr.set bin_index ((arr.getD bin_index 0 + 1) % 256))
        (if bin_index > maxIdx then bin_index else maxIdx)
    else none

/-- ir_distance_width.c, `decode_bits`: threshold comparison per
symbol, packing LSB first (or MSB first, unused by the one caller).
The C accumulator is a uint32_t and the shift `1UL << bit` is not
defined for bit ≥ 32; the accumulation is modelled exactly for
bit < 32 and ideally (as mathematical bit packing) beyond, with the
truncation to the 32-bit `data` field applied at the store in
`ir_decode_distance_width`. -/
def decode_bits (syms : List RmtSymbol) (start_index : Nat) (long_duration_us : Nat)
    (is_pulse_width is_msb_first : Bool) : Nat → Nat → Nat → Nat
  | 0, _, data => data
  | fuel + 1, bit, data =>
    let sym := syms.getD (start_index + bit) default
    let bit_value :=
      if is_pulse_width then decide (long_duration_us ≤ sym.duration0)
      else decide (long_duration_us ≤ sym.duration1)
    let data1 :=
      if is_msb_first then (data <<< 1) ||| (if bit_value then 1 else 0)
      else if bit_value then data ||| (1 <<< bit) else data
    decode_bits syms start_index long_duration_us is_pulse_width is_msb_first fuel (bit + 1) data1

/-- ir_distance_width.c, `ir_decode_distance_width`: the universal
pulse distance/width decoder.  `num_bits` is a uint8_t, computed as
`num_symbols - 2` and decremented once more when the spaces vary
("pulse distance has mandatory stop bit"); both steps are reduced
`% 256` as the uint8 arithmetic does. -/
def ir_decode_distance_width (syms : List RmtSymbol) : Except EspErr IrCode :=
  let num_symbols := syms.length
  if num_symbols < 18 then .error .invalidArg
  else
    match build_histogram syms true (num_symbols - 2) 1 (List.replicate 200 0) 0 with
    | none => .error .fail
    | some (mark_histogram, mark_max_index) =>
      match build_histogram syms false (num_symbols - 2) 1 (List.replicate 200 0) 0 with
      | none => .error .fail
      | some (space_histogram, space_max_index) =>
        match aggregate_array_counts mark_histogram mark_max_index with
        | none => .error .fail
        | some (_, mark_short_idx, mark_long_idx) =>
          match aggregate_array_counts space_histogram space_max_index with
          | none => .error .fail
          | some (_, space_short_idx, space_long_idx) =>
            let mark_short_us := mark_short_idx * 50
            let mark_long_us := mark_long_idx * 50
            let space_short_us := space_short_idx * 50
            let space_long_us := space_long_idx * 50
            if mark_long_idx = 0 ∧ space_long_idx = 0 then .error .fail
            else
              let is_pulse_width := mark_long_idx ≠ 0 ∧ space_short_idx = space_long_idx
              let num_bits0 := (num_symbols - 2) % 256
              let num_bits := if space_long_idx > 0 then (num_bits0 + 255) % 256 else num_bits0
              if num_bits = 0 ∨ num_bits > 64 then .error .fail
              else
                let long_threshold_us :=
                  if is_pulse_width then (mark_short_us + mark_long_us) / 2
                  else (space_short_us + space_long_us) / 2
                let decoded_data :=
                  decode_bits syms 1 long_threshold_us is_pulse_width false num_bits 0 0
                .ok { IrCode.zero with
                      protocol := if is_pulse_width then .pulseWidth else .pulseDistance,
                      data := decoded_data % 4294967296, bits := num_bits }

/-- `ir_protocol_constants_t` (ir_protocols.h). -/
structure IrProtocolConstants where
  protocol : IrProtocol
  carrier_khz : Nat
  header_mark_us : Nat
  header_space_us : Nat
  bit_mark_us : Nat
  one_space_us : Nat
  zero_space_us : Nat
  flags : Nat
  repeat_period_ms : Nat
  bits : Nat
deriving DecidableEq, Repr

/-- The PROTOCOL_DATABASE array of ir_protocols.c, in order.  Flag
encoding: LSB_FIRST/PULSE_DISTANCE/HAS_STOP_BIT are 0; MSB_FIRST 0x80,
PULSE_WIDTH 0x10, NO_STOP_BIT 0x20, BIPHASE 0x40. -/
def PROTOCOL_DATABASE : List IrProtocolConstants :=
  [ ⟨.nec, 38, 9000, 4500, 560, 1690, 560, 0x00, 110, 32⟩,
    ⟨.samsung, 38, 4500, 4500, 560, 1690, 560, 0x00, 108, 32⟩,
    ⟨.sony, 40, 2400, 600, 600, 1200, 600, 0x30, 45, 0⟩,
    ⟨.jvc, 38, 8400, 4200, 525, 1575, 525, 0x00, 60, 16⟩,
    ⟨.lg, 38, 9000, 4500, 560, 1690, 560, 0x00, 110, 28⟩,
    ⟨.rc5, 36, 0, 0, 889, 889, 889, 0xC0, 114, 13⟩,
    ⟨.rc6, 36, 2666, 889, 444, 444, 444, 0xC0, 114, 20⟩,
    ⟨.denon, 38, 275, 775, 275, 1900, 775, 0x00, 45, 15⟩,
    ⟨.sharp, 38, 275, 775, 275, 1900, 775, 0x00, 45, 15⟩,
    ⟨.panasonic, 37, 3456, 1728, 432, 1296, 432, 0x00, 130, 48⟩,
    ⟨.kaseikyo, 37, 3456, 1728, 432, 1296, 432, 0x00, 130, 48⟩,
    ⟨.apple, 38, 9000, 4500, 560, 1690, 560, 0x00, 110, 32⟩,
    ⟨.onkyo, 38, 9000, 4500, 560, 1690, 560, 0x00, 110, 32⟩,
    ⟨.samsung48, 38, 4500, 4500, 560, 1690, 560, 0x00, 108, 48⟩,
    ⟨.lg2, 38, 3200, 9900, 560, 1690, 560, 0x00, 110, 28⟩,
    ⟨.whynter, 38, 2850, 2850, 750, 750, 750, 0x80, 100, 32⟩,
    ⟨.legoPf, 38, 158, 1026, 158, 553, 263, 0x80, 0, 16⟩,
    ⟨.magiquest, 38, 0, 0, 288, 864, 576, 0x90, 0, 56⟩,
    ⟨.bosewave, 38, 1014, 1468, 428, 896, 1492, 0x90, 50, 16⟩,
    ⟨.bangOlufsen, 455, 3125, 3125, 625, 625, 1250, 0x90, 100, 16⟩,
    ⟨.fast, 38, 0, 0, 320, 640, 320, 0x00, 0, 8⟩ ]

/-- ir_protocols.c, `ir_get_protocol_constants`: linear search. -/
def ir_get_protocol_constants (protocol : IrProtocol) : Option IrProtocolConstants :=
  PROTOCOL_DATABASE.find? (fun k => k.protocol == protocol)

/-- ir_control.c, `ir_populate_metadata`: carrier frequency and repeat
period from the database, 38kHz/110ms defaults, 33% duty cycle. -/
def ir_populate_metadata (code : IrCode) : IrCode :=
  match ir_get_protocol_constants code.protocol with
  | some proto =>
    { code with
      carrierFreqHz := proto.carrier_khz * 1000,
      repeatPeriodMs := proto.repeat_period_ms, dutyCyclePercent := 33 }
  | none =>
    { code with carrierFreqHz := 38000, repeatPeriodMs := 110, dutyCyclePercent := 33 }

/-- ir_control.c, `ir_filter_noise`: drops symbols whose mark is
noise; a symbol with a valid mark but noisy space is merged with the
following symbol (or dropped when it is the last symbol). -/
def ir_filter_noise : List RmtSymbol → List RmtSymbol
  | [] => []
  | sym :: rest =>
    let d0_valid := sym.duration0 ≥ 100
    let d1_valid := sym.duration1 ≥ 100
    if d0_valid ∧ d1_valid then sym :: ir_filter_noise rest
    else if d0_valid ∧ ¬ d1_valid then
      match rest with
      | [] => []
      | next :: rest2 =>
        ⟨sym.level0, sym.duration0, next.level0, next.duration0⟩ :: ir_filter_noise rest2
    else ir_filter_noise rest

/-- The forward scan of `ir_trim_gaps`: first index whose mark and
space are both below the 50ms idle gap. -/
def ir_trim_find_start (syms : List RmtSymbol) : Nat → Nat → Option Nat
  | 0, _ => none
  | fuel + 1, i =>
    let s := syms.getD i default
    if s.duration0 < 50000 ∧ s.duration1 < 50000 then some i
    else ir_trim_find_start syms fuel (i + 1)

/-- The backward scan of `ir_trim_gaps` (runs for indexes > start). -/
def ir_trim_find_end (syms : List RmtSymbol) (start : Nat) : Nat → Nat → Option Nat
  | 0, _ => none
  | fuel + 1, i =>
    if i ≤ start then none
    else
      let s := syms.getD i default
      if s.duration0 < 50000 ∧ s.duration1 < 50000 then some i
      else ir_trim_find_end syms start fuel (i - 1)

/-- ir_control.c, `ir_trim_gaps`: returns (start_idx, end_idx), which
default to 0 and num_symbols-1 when no short-gap symbol is found. -/
def ir_trim_gaps (syms : List RmtSymbol) : Nat × Nat :=
  let num_symbols := syms.length
  let start_idx := (ir_trim_find_start syms num_symbols 0).getD 0
  let end_idx := (ir_trim_find_end syms start_idx num_symbols (num_symbols - 1)).getD
    (num_symbols - 1)
  (start_idx, end_idx)

/-- The RAW timing comparison loop of `ir_codes_match` (10%
tolerance, relative to the second code's durations). -/
def raw_timings_match (raw1 raw2 : List RmtSymbol) : Nat → Nat → Bool
  | 0, _ => true
  | fuel + 1, i =>
    let r1 := raw1.getD i default
    let r2 := raw2.getD i default
    if timing_matches r1.duration0 r2.duration0 (r2.duration0 / 10) &&
       timing_matches r1.duration1 r2.duration1 (r2.duration1 / 10) then
      raw_timings_match raw1 raw2 fuel (i + 1)
    else false

/-- ir_control.c, `ir_codes_match`: protocol equality, then key-field
comparison ignoring the toggle flag for RC5/RC6, or 10%-tolerance raw
timing comparison for RAW codes. -/
def ir_codes_match (code1 code2 : IrCode) : Bool :=
  if code1.protocol ≠ code2.protocol then false
  else if code1.protocol ≠ .raw then
    let is_toggle_protocol := code1.protocol = .rc5 ∨ code1.protocol = .rc6
    if is_toggle_protocol then
      decide (code1.address = code2.address ∧ code1.command = code2.command ∧
              code1.bits = code2.bits)
    else
      decide (code1.data = code2.data ∧ code1.address = code2.address ∧
              code1.command = code2.command ∧ code1.bits = code2.bits)
  else
    if code1.rawLength ≠ code2.rawLength then false
    else raw_timings_match code1.rawData code2.rawData code1.rawLength 0

/-- The stateless tail of the decoder chain of `ir_receive_task`
(everything after NEC), in the fixed priority order of the source:
Samsung, Sony, RC5, RC6, JVC, LG (tier 1), Denon, Panasonic,
Samsung48, Apple (tier 2), Mitsubishi, Daikin, Fujitsu, Haier, Midea,
Carrier, Hitachi (AC), Whynter, Lego, MagiQuest, BoseWave, FAST
(tier 3), and the universal distance/width decoder last (tier 4).
All of these receive the unprocessed captured symbols, exactly as the
source passes `rx_data.received_symbols`. -/
def decoder_chain_rest (received : List RmtSymbol) : List (Except EspErr IrCode) :=
  [ decode_samsung_protocol received,
    ir_decode_sony received,
    ir_decode_rc5 received,
    ir_decode_rc6 received,
    ir_decode_jvc received,
    ir_decode_lg received,
    ir_decode_denon received,
    ir_decode_panasonic received,
    ir_decode_samsung48 received,
    ir_decode_apple received,
    ir_decode_mitsubishi received,
    ir_decode_daikin received,
    ir_decode_fujitsu received,
    ir_decode_haier received,
    ir_decode_midea received,
    ir_decode_carrier received,
    ir_decode_hitachi received,
    ir_decode_whynter received,
    ir_decode_lego received,
    ir_decode_magiquest received,
    ir_decode_bosewave received,
    ir_decode_fast received,
    ir_decode_distance_width received ]

/-- The `if (ret != ESP_OK) ret = next(...)` cascade: each decoder in
turn overwrites a non-OK result; an OK result is never overwritten. -/
def chain_fold (r0 : Except EspErr IrCode) (rest : List (Except EspErr IrCode)) :
    Except EspErr IrCode :=
  rest.foldl (fun ret d => match ret with | .ok c => .ok c | .error _ => d) r0

/-- The tiered dispatch of `ir_receive_task` (lines 617-719): NEC
first on the processed symbols, then the stateless chain on the raw
captured symbols. -/
def ir_tiered_dispatch (st : NecState) (now : Nat)
    (processed received : List RmtSymbol) : Except EspErr IrCode × NecState :=
  match decode_nec_protocol st now processed with
  | (r0, st1) => (chain_fold r0 (decoder_chain_rest received), st1)

/-- What the receive task does with one capture in normal
(non-learning) mode. -/
inductive RxOutcome where
  | delivered (code : IrCode)   -- receive_cb invoked with this code
  | repeatIgnored               -- ESP_ERR_NOT_SUPPORTED: logged and dropped
  | dropped                     -- no decode and not RAW-eligible
deriving DecidableEq, Repr

/-- ir_control.c, `ir_receive_task`, one iteration in normal mode:
noise filter (falling back to the unfiltered capture when the filter
empties it), gap trim, tiered dispatch, then metadata population on
success, the NOT_SUPPORTED drop, or RAW fallback for captures of
10..256 symbols.  Note that only the NEC decoder sees the
filtered/trimmed symbols and that the RAW fallback stores the
original capture. -/
def ir_receive_process (st : NecState) (now : Nat) (received : List RmtSymbol) :
    RxOutcome × NecState :=
  let filtered := ir_filter_noise received
  let (work_syms, processing_flags) :=
    if filtered.length > 0 then (filtered, IR_VALIDATION_NOISE_FILTERED)
    else (received, 0)
  let (trim_start, trim_end) := ir_trim_gaps work_syms
  let processing_flags :=
    if trim_start > 0 ∨ trim_end < work_syms.length - 1 then
      processing_flags ||| IR_VALIDATION_GAP_TRIMMED
    else processing_flags
  let processed := (work_syms.drop trim_start).take (trim_end - trim_start + 1)
  match ir_tiered_dispatch st now processed received with
  | (.ok code, st1) =>
    let code := ir_populate_metadata code
    let code := { code with validationStatus := processing_flags }
    (.delivered code, st1)
  | (.error .notSupported, st1) => (.repeatIgnored, st1)
  | (.error _, st1) =>
    if 10 ≤ received.length ∧ received.length ≤ 256 then
      (.delivered { IrCode.zero with
                     protocol := .raw, data := 0, bits := 0,
                     rawData := received, rawLength := received.length }, st1)
    else (.dropped, st1)

/-- The multi-frame verification statics of `ir_receive_task`:
`verify_frames[0]`, `verify_frame_idx` and `last_frame_time`. -/
structure VerifyState where
  idx : Nat
  buf : IrCode
  lastFrameTime : Nat
deriving DecidableEq, Repr

/-- Zero-initialised verification state. -/
def VerifyState.init : VerifyState := { idx := 0, buf := IrCode.zero, lastFrameTime := 0 }

/-- The learning-mode multi-frame verification block of
`ir_receive_task` (lines 726-806), for one successfully decoded frame
`code` arriving at time `t` (ms): timeout reset after 500ms, first
frame buffered, a matching frame increments the counter and the code
is accepted as soon as two frames agree (`verify_frame_idx >= 2`,
"Accept 2 or 3 frames"), a mismatching frame restarts the buffer with
the new frame.  The returned Option is the verified code stored and
persisted on acceptance, at which point learning mode exits and the
frame counter resets. -/
def verify_step (st : VerifyState) (code : IrCode) (t : Nat) :
    VerifyState × Option IrCode :=
  let st :=
    if (t + 18446744073709551616 - st.lastFrameTime) % 18446744073709551616 > 500 then
      { st with idx := 0 }
    else st
  if st.idx = 0 then
    ({ idx := 1, buf := code, lastFrameTime := t }, none)
  else if ir_codes_match code st.buf then
    let idx1 := st.idx + 1
    if idx1 ≥ 2 then
      let verified :=
        { st.buf with
          validationStatus := st.buf.validationStatus |||
            (if idx1 = 2 then IR_VALIDATION_TWO_FRAMES else IR_VALIDATION_THREE_FRAMES),
          repeatCount := idx1 }
      ({ idx := 0, buf := st.buf, lastFrameTime := t }, some verified)
    else ({ st with idx := idx1, lastFrameTime := t }, none)
  else ({ idx := 1, buf := code, lastFrameTime := t }, none)

/-- A learning episode over a sequence of decoded frames with their
arrival times: frames are fed to `verify_step` until one is accepted
(learning mode exits on acceptance, so later frames are not
considered). -/
def run_learning : List (IrCode × Nat) → VerifyState → Option IrCode
  | [], _ => none
  | (code, t) :: rest, st =>
    match verify_step st code t with
    | (st1, none) => run_learning rest st1
    | (_, some v) => some v

/-- `ac_mode_t` (ir_ac_state.h). -/
inductive AcMode where
  | off
  | auto
  | cool
  | heat
  | dry
  | fan
deriving DecidableEq, Repr

/-- `ac_fan_speed_t` (ir_ac_state.h). -/
inductive AcFanSpeed where
  | auto
  | low
  | medium
  | high
  | quiet
  | turbo
deriving DecidableEq, Repr

/-- `ac_swing_t` (ir_ac_state.h). -/
inductive AcSwing where
  | off
  | vertical
  | horizontal
  | both
  | auto
deriving DecidableEq, Repr

/-- `ac_state_t` (ir_ac_state.h): the canonical appliance state. -/
structure AcState where
  power : Bool
  mode : AcMode
  temperature : Nat        -- uint8_t, °C
  fan_speed : AcFanSpeed
  swing : AcSwing
  turbo : Bool
  quiet : Bool
  econo : Bool
  clean : Bool
  sleep : Bool
  sleep_timer : Nat        -- uint8_t, minutes
  display : Bool
  beep : Bool
  filter : Bool
  light : Bool
  anti_fungal : Bool
  auto_clean : Bool
  comfort_mode : Nat       -- uint8_t
  protocol : IrProtocol
  protocol_variant : Nat   -- uint8_t
  is_learned : Bool
  brand : String
  model : String
deriving DecidableEq, Repr

/-- ir_ac_encoders.c, `calculate_nibble_checksum`: uint16 sum of both
nibbles of each of the first `len` bytes, low nibble returned. -/
def calculate_nibble_checksum (data : List Nat) (len : Nat) : Nat :=
  ((List.range len).foldl
    (fun sum i =>
      (sum + (data.getD i 0 &&& 0x0F) + ((data.getD i 0 >>> 4) &&& 0x0F)) % 65536)
    0) &&& 0x0F

/-- The mode switch of `ir_ac_encode_carrier` (lines 161-169):
0=Auto, 1=Cool, 2=Dry, 3=Fan, 4=Heat, default (incl. OFF) 1. -/
def carrier_mode_bits (mode : AcMode) : Nat :=
  match mode with
  | .auto => 0
  | .cool => 1
  | .dry => 2
  | .fan => 3
  | .heat => 4
  | .off => 1

/-- The fan-speed switch of `ir_ac_encode_carrier` (lines 181-188):
0=Auto, 1=Low, 2=Medium, 3=High, default (quiet/turbo) 0. -/
def carrier_fan_bits (fan_speed : AcFanSpeed) : Nat :=
  match fan_speed with
  | .auto => 0
  | .low => 1
  | .medium => 2
  | .high => 3
  | .quiet => 0
  | .turbo => 0

/-- Byte 3 of the Carrier frame: power in bit 0, mode in bits 1-3. -/
def carrier_byte3 (state : AcState) : Nat :=
  (if state.power then 0x01 else 0) ||| (carrier_mode_bits state.mode <<< 1)

/-- Byte 4 of the Carrier frame: temperature clamped to 16-30°C,
offset by 16. -/
def carrier_byte4 (state : AcState) : Nat :=
  let temp := state.temperature
  let temp := if temp < 16 then 16 else temp
  let temp := if temp > 30 then 30 else temp
  temp - 16

/-- Byte 6 of the Carrier frame: vertical swing bit. -/
def carrier_byte6 (state : AcState) : Nat :=
  if state.swing = AcSwing.vertical ∨ state.swing = AcSwing.both then 0x01 else 0

/-- The 16-byte Carrier/Voltas frame built by `ir_ac_encode_carrier`
(ir_ac_encoders.c lines 143-212) from the full state: fixed header
0xB2 0x4D, command type 0x00, power+mode, temperature, fan, swing,
turbo, sleep, econo, five reserved zero bytes, and the nibble-sum
checksum of bytes 0-14 in byte 15.  The whole frame is regenerated
from the state on every encode. -/
def carrier_frame_bytes (state : AcState) : List Nat :=
  let data :=
    [ 0xB2, 0x4D, 0x00,
      carrier_byte3 state,
      carrier_byte4 state,
      carrier_fan_bits state.fan_speed,
      carrier_byte6 state,
      if state.turbo then 0x01 else 0x00,
      if state.sleep then 0x01 else 0x00,
      if state.econo then 0x01 else 0x00,
      0x00, 0x00, 0x00, 0x00, 0x00 ]
  data ++ [calculate_nibble_checksum data 15]

/-- One byte of `encode_bytes_to_code_lsb` (ir_ac_encoders.c lines
65-78): LSB first, a mark then the one- or zero-space per bit. -/
def encode_byte_timings_lsb (byte mark_us one_space_us zero_space_us : Nat) :
    Nat → Nat → List Nat
  | 0, _ => []
  | fuel + 1, bit =>
    mark_us :: (if byte &&& (1 <<< bit) ≠ 0 then one_space_us else zero_space_us) ::
      encode_byte_timings_lsb byte mark_us one_space_us zero_space_us fuel (bit + 1)

/-- ir_ac_encoders.c, `encode_bytes_to_code_lsb`: the raw uint16
timing array (mark, space per bit; allocation failure is not
modelled). -/
def encode_bytes_to_timings_lsb (data : List Nat) (mark_us one_space_us zero_space_us : Nat) :
    List Nat :=
  (data.map (fun b => encode_byte_timings_lsb b mark_us one_space_us zero_space_us 8 0)).flatten

/-- The result of `ir_ac_encode_carrier`: the ir_code_t it fills,
with the raw timing buffer kept as a flat µs list (the C code stores
it through the uint16 `raw_data` pointer). -/
structure CarrierEncoded where
  frame : List Nat
  raw_timings : List Nat
  bits : Nat
  protocol : IrProtocol
  carrierFreqHz : Nat
  dutyCyclePercent : Nat
deriving DecidableEq, Repr

/-- ir_ac_encoders.c, `ir_ac_encode_carrier`: builds the 16-byte
frame from the full state and encodes it with NEC-like timing
(560/1690/560µs) at 38kHz. -/
def ir_ac_encode_carrier (state : AcState) : CarrierEncoded :=
  let data := carrier_frame_bytes state
  { frame := data,
    raw_timings := encode_bytes_to_timings_lsb data 560 1690 560,
    bits := 16 * 8,
    protocol := .carrier,
    carrierFreqHz := 38000,
    dutyCyclePercent := 33 }

/-- Field tags for `ac_state_t`, used to state single-field-change
properties. -/
inductive AcField where
  | power
  | mode
  | temperature
  | fan_speed
  | swing
  | turbo
  | quiet
  | econo
  | clean
  | sleep
  | sleep_timer
  | display
  | beep
  | filter
  | light
  | anti_fungal
  | auto_clean
  | comfort_mode
  | protocol
  | protocol_variant
  | is_learned
  | brand
  | model
deriving DecidableEq, Repr

/-- Overwrites field `f` with a fixed default; two states agree on
every field except possibly `f` exactly when their erasures at `f`
are equal. -/
def eraseField (f : AcField) (s : AcState) : AcState :=
  match f with
  | .power => { s with power := false }
  | .mode => { s with mode := .off }
  | .temperature => { s with temperature := 0 }
  | .fan_speed => { s with fan_speed := .auto }
  | .swing => { s with swing := .off }
  | .turbo => { s with turbo := false }
  | .quiet => { s with quiet := false }
  | .econo => { s with econo := false }
  | .clean => { s with clean := false }
  | .sleep => { s with sleep := false }
  | .sleep_timer => { s with sleep_timer := 0 }
  | .display => { s with display := false }
  | .beep => { s with beep := false }
  | .filter => { s with filter := false }
  | .light => { s with light := false }
  | .anti_fungal => { s with anti_fungal := false }
  | .auto_clean => { s with auto_clean := false }
  | .comfort_mode => { s with comfort_mode := 0 }
  | .protocol => { s with protocol := .unknown }
  | .protocol_variant => { s with protocol_variant := 0 }
  | .is_learned => { s with is_learned := false }
  | .brand => { s with brand := "" }
  | .model => { s with model := "" }

/-- The byte/bit positions the Carrier layout assigns to each
`ac_state_t` field, as a per-byte bitmask: power is bit 0 of byte 3,
mode bits 1-3 of byte 3, temperature byte 4, fan speed byte 5, swing
byte 6, turbo byte 7, sleep byte 8, econo byte 9; every other field
is not encoded. -/
def carrier_assigned_mask (f : AcField) (i : Nat) : Nat :=
  match f with
  | .power => if i = 3 then 0x01 else 0
  | .mode => if i = 3 then 0x0E else 0
  | .temperature => if i = 4 then 0xFF else 0
  | .fan_speed => if i = 5 then 0xFF else 0
  | .swing => if i = 6 then 0xFF else 0
  | .turbo => if i = 7 then 0xFF else 0
  | .sleep => if i = 8 then 0xFF else 0
  | .econo => if i = 9 then 0xFF else 0
  | _ => 0

/-- The specification-side checksum formula: the sum of both nibbles
of every byte, taken modulo 16. -/
def nibble_sum_mod16 (bytes : List Nat) : Nat :=
  (bytes.map (fun b => b % 16 + b / 16 % 16)).sum % 16

/-- A synthetic 34-symbol NEC frame: header (9000,4500), 32 data
symbols with 560µs marks and spaces of 1690µs (bit 1) or 560µs
(bit 0) LSB first, and a stop symbol whose trailing space is below
the 50ms idle-gap threshold. -/
def nec_test_frame (data : Nat) : List RmtSymbol :=
  ⟨1, 9000, 0, 4500⟩ ::
    ((List.range 32).map
      (fun i => ⟨1, 560, 0, if (data >>> i) &&& 1 = 1 then 1690 else 560⟩) ++
     [⟨1, 560, 0, 40000⟩])

/-- A 34-symbol capture that starts with the NEC repeat header
(9000µs mark, 2250µs space) followed by filler data symbols: large
enough to pass the NEC decoder's 34-symbol gate, so the repeat branch
is reached. -/
def nec_repeat_frame_padded : List RmtSymbol :=
  ⟨1, 9000, 0, 2250⟩ :: (List.replicate 32 ⟨1, 560, 0, 560⟩ ++ [⟨1, 560, 0, 40000⟩])

/-- A genuine NEC repeat capture as the hardware would deliver it:
just the repeat header and the stop mark - two symbols. -/
def nec_repeat_frame_short : List RmtSymbol :=
  [⟨1, 9000, 0, 2250⟩, ⟨1, 560, 0, 32767⟩]

/-- The NEC code decoded from `nec_test_frame 0xF30CFF00`
(address 0x00, ~address 0xFF, command 0x0C, ~command 0xF3). -/
def nec_code_A : IrCode :=
  { IrCode.zero with
    protocol := .nec, data := 0xF30CFF00, bits := 32, address := 0x00, command := 0x0C }

/-- A second, different NEC code (command 0x0D). -/
def nec_code_B : IrCode :=
  { IrCode.zero with
    protocol := .nec, data := 0xF20DFF00, bits := 32, address := 0x00, command := 0x0D }

/-- A 265-symbol Hitachi frame (33 bytes) whose first byte is 0x01 and
whose remaining bytes are zero: the byte-sum checksum over bytes 0-31
is 1 but the received checksum byte is 0, so checksum validation
fails. -/
def hitachi_bad_checksum_frame : List RmtSymbol :=
  ⟨1, 3300, 0, 1700⟩ :: (⟨1, 370, 0, 1260⟩ :: List.replicate 263 ⟨1, 370, 0, 370⟩)

/-- A 13-symbol Sony SIRC-12 capture (all-zero data bits). -/
def sony_test_frame : List RmtSymbol :=
  ⟨1, 2400, 0, 600⟩ :: List.replicate 12 ⟨1, 600, 0, 600⟩

/-- A 43-symbol pulse-distance capture for the universal decoder:
constant 560µs marks, spaces 560µs except symbol 40 (1690µs), so the
accepted bit count is 40 and decoded bit 39 is set. -/
def dw_forty_bit_frame : List RmtSymbol :=
  ⟨1, 1000, 0, 1000⟩ ::
    ((List.range 41).map (fun i => ⟨1, 560, 0, if i = 39 then 1690 else 560⟩) ++
     [⟨1, 560, 0, 1000⟩])

/-- A concrete AC state (power on, cool, 24°C, auto fan). -/
def ac_state_base : AcState :=
  { power := true, mode := .cool, temperature := 24, fan_speed := .auto, swing := .off,
    turbo := false, quiet := false, econo := false, clean := false, sleep := false,
    sleep_timer := 0, display := true, beep := true, filter := false, light := true,
    anti_fungal := false, auto_clean := false, comfort_mode := 0,
    protocol := .carrier, protocol_variant := 0, is_learned := true,
    brand := "", model := "" }

/-- Decidable equality for decoder results (needed to evaluate the
concrete instances below). -/
instance : DecidableEq (Except EspErr IrCode) := fun a b =>
  match a, b with
  | .ok x, .ok y =>
    if h : x = y then .isTrue (by rw [h]) else .isFalse (by simp [h])
  | .error x, .error y =>
    if h : x = y then .isTrue (by rw [h]) else .isFalse (by simp [h])
  | .ok _, .error _ => .isFalse (by simp)
  | .error _, .ok _ => .isFalse (by simp)

/-- Whether a decoder result is ESP_OK. -/
def isOkB : Except EspErr IrCode → Bool
  | .ok _ => true
  | .error _ => false

/-- The variable byte count computed by `ir_decode_hitachi`:
(num_symbols - 1) / 8 as a uint8, capped at HITACHI_MAX_BYTES. -/
def hitachi_num_bytes (num_symbols : Nat) : Nat :=
  let num_bytes0 := ((num_symbols - 1) / 8) % 256
  if num_bytes0 > 43 then 43 else num_bytes0

/-- The bytes of a Carrier frame outside the bits assigned to field
`f` (and outside the checksum byte 15): byte `i` masked with the
complement of `carrier_assigned_mask f i`, for bytes 0-14. -/
def carrier_mask_outside (f : AcField) (l : List Nat) : List Nat :=
  (List.range 15).map fun i => l.getD i 0 &&& (0xFF ^^^ carrier_assigned_mask f i)

/-- `ac_state_base` with the power field toggled off: differs from
`ac_state_base` in exactly the power field. -/
def ac_state_base_off : AcState :=
  { ac_state_base with power := false }

/-- C4 counterexample: the claim states `matches(0, 0, t)` is defined
false for every tolerance, but `ir_timing_matches_percent` computes a
zero tolerance, bounds 0..0 and `0 ≤ 0 ≤ 0`, returning true: there is
no degenerate-input guard in the code. -/
theorem c4_counterexample : ir_timing_matches_percent 0 0 25 = true := by decide

/-- C4 (amended): for 16-bit inputs whose tolerance computation does
not overflow (t ≤ 100 and expected + expected·t/100 ≤ 65535), the
matcher returns true iff measured lies within ±(expected·t/100,
rounded down) of expected; and `matches(0,0,t)` is true (not false)
for every tolerance.  The function is pure and total. -/
theorem c4_timing_matcher_amended :
    (∀ m e t : Nat, m < 65536 → e < 65536 → t ≤ 100 → e + e * t / 100 ≤ 65535 →
      (ir_timing_matches_percent m e t = true ↔
        (e - e * t / 100 ≤ m ∧ m ≤ e + e * t / 100))) ∧
    (∀ t : Nat, ir_timing_matches_percent 0 0 t = true) := by
  constructor
  · intro m e t hm he ht hov
    have h1 : e * t ≤ e * 100 := Nat.mul_le_mul_left e ht
    have h2 : e * t / 100 ≤ e := by
      calc e * t / 100 ≤ e * 100 / 100 := Nat.div_le_div_right h1
        _ = e := Nat.mul_div_cancel e (by norm_num)
    simp only [ir_timing_matches_percent, Bool.and_eq_true, decide_eq_true_eq]
    omega
  · intro t
    simp only [ir_timing_matches_percent, Bool.and_eq_true, decide_eq_true_eq]
    omega

/-- C4 witness: the amended theorem applied at measured 750,
expected 1000, tolerance 25 (the 750-1250µs example from the code
comment). -/
theorem c4_timing_matcher_witness : ir_timing_matches_percent 750 1000 25 = true :=
  (c4_timing_matcher_amended.1 750 1000 25 (by decide) (by decide) (by decide)
    (by decide)).mpr (by decide)

/-- C5 counterexample: the claim states `matches(x, x, t)` is true for
every 8-bit tolerance t, but at x = 10, t = 200 the uint16 lower
bound `10 - 20` wraps to 65526 and the matcher returns false. -/
theorem c5_counterexample : ir_timing_matches_percent 10 10 200 = false := by decide

/-- C5 (amended): `matches(x, x, t)` is true whenever t ≤ 100 and
x + x·t/100 fits in 16 bits; `matches(x, x*2, 25)` is false for
1 ≤ x ≤ 32767 (so that x*2 itself fits in 16 bits); and at x = 0,
`matches(0, 0, 25)` is true, not false.  (Both restrictions are
forced by the uint16 arithmetic: e.g. `matches(10,10,200) = false`
and `matches(55000, 110000 mod 2^16, 25) = true`.) -/
theorem c5_timing_identity_amended :
    (∀ x t : Nat, x < 65536 → t ≤ 100 → x + x * t / 100 ≤ 65535 →
      ir_timing_matches_percent x x t = true) ∧
    (∀ x : Nat, 1 ≤ x → x ≤ 32767 → ir_timing_matches_percent x (x * 2) 25 = false) ∧
    ir_timing_matches_percent 0 0 25 = true := by
  refine ⟨?_, ?_, by decide⟩
  · intro x t hx ht hov
    have h1 : x * t ≤ x * 100 := Nat.mul_le_mul_left x ht
    have h2 : x * t / 100 ≤ x := by
      calc x * t / 100 ≤ x * 100 / 100 := Nat.div_le_div_right h1
        _ = x := Nat.mul_div_cancel x (by norm_num)
    simp only [ir_timing_matches_percent, Bool.and_eq_true, decide_eq_true_eq]
    omega
  · intro x hx1 hx2
    have ht : x * 2 * 25 / 100 = x / 2 := by omega
    have hm1 : x / 2 % 65536 = x / 2 := by omega
    have hl : (x * 2 + 65536 - x / 2) % 65536 = x * 2 - x / 2 := by omega
    simp only [ir_timing_matches_percent, Bool.and_eq_false_iff, decide_eq_false_iff_not,
      ht, hm1, hl]
    omega

/-- C5 witness: the amended theorem applied at x = 1000 (identity
match) and x = 100 (double-expected mismatch). -/
theorem c5_timing_identity_witness :
    ir_timing_matches_percent 1000 1000 25 = true ∧
    ir_timing_matches_percent 100 (100 * 2) 25 = false :=
  ⟨c5_timing_identity_amended.1 1000 25 (by decide) (by decide) (by decide),
   c5_timing_identity_amended.2.1 100 (by decide) (by decide)⟩

/-- C2 counterexample: with a NEC code decoded at t=0 (state threaded
from a real decode), a genuine repeat capture - the 9000µs/2250µs
repeat symbol plus the stop mark, two symbols in total - arriving at
t=150ms is NOT resolved: `decode_nec_protocol` requires at least 34
symbols before it even looks for the repeat header, so the claimed
"repeat within 200ms succeeds" fails for the repeat frames the
hardware actually produces. -/
theorem c2_nec_repeat_counterexample :
    (decode_nec_protocol
      (decode_nec_protocol NecState.init 0 (nec_test_frame 0xF30CFF00)).2
      150 nec_repeat_frame_short).1 = .error .invalidArg := by decide

/-- C2 (amended): for captures of at least 34 symbols whose first
symbol matches the repeat envelope (mark ≈9000µs, space failing the
4500µs check but matching 2250µs, ±300µs), the repeat is resolved to
the previously decoded code - with the repeat flag set and identical
address and command, and the repeat timestamp refreshed - if and only
if the last decode was NEC and arrived less than 200ms ago; otherwise
the decoder returns ESP_ERR_INVALID_STATE and the state is
unchanged. -/
theorem c2_nec_repeat_amended (st : NecState) (now : Nat) (syms : List RmtSymbol)
    (hlen : 34 ≤ syms.length)
    (h9 : timing_matches (syms.getD 0 default).duration0 9000 300 = true)
    (h45 : timing_matches (syms.getD 0 default).duration1 4500 300 = false)
    (h225 : timing_matches (syms.getD 0 default).duration1 2250 300 = true)
    (hts : st.lastTime ≤ now) (hnow : now < 18446744073709551616) :
    (st.last.protocol = IrProtocol.nec ∧ now - st.lastTime < 200 →
      decode_nec_protocol st now syms =
        (.ok { st.last with flags := st.last.flags ||| IR_FLAG_REPEAT },
         { st with lastTime := now })) ∧
    (¬ (st.last.protocol = IrProtocol.nec ∧ now - st.lastTime < 200) →
      decode_nec_protocol st now syms = (.error .invalidState, st)) := by
  have h34 : ¬ (syms.length < 34) := by omega
  have hmod : (now + 18446744073709551616 - st.lastTime) % 18446744073709551616
      = now - st.lastTime := by omega
  constructor
  · intro hcond
    simp only [decode_nec_protocol, h34, h9, h45, h225, hmod, Bool.not_true, Bool.not_false,
      if_false, if_true, Bool.false_eq_true, Bool.true_eq_false]
    rw [if_pos hcond]
  · intro hcond
    simp only [decode_nec_protocol, h34, h9, h45, h225, hmod, Bool.not_true, Bool.not_false,
      if_false, if_true, Bool.false_eq_true, Bool.true_eq_false]
    rw [if_neg hcond]

/-- C2 witness: the amended theorem at a 34-symbol repeat-header
capture with a prior NEC decode at t=0: resolved with the repeat flag
at t=150ms, ESP_ERR_INVALID_STATE at t=250ms. -/
theorem c2_nec_repeat_witness :
    decode_nec_protocol { last := nec_code_A, lastTime := 0 } 150 nec_repeat_frame_padded =
      (.ok { nec_code_A with flags := nec_code_A.flags ||| IR_FLAG_REPEAT },
       { last := nec_code_A, lastTime := 150 }) ∧
    decode_nec_protocol { last := nec_code_A, lastTime := 0 } 250 nec_repeat_frame_padded =
      (.error .invalidState, { last := nec_code_A, lastTime := 0 }) :=
  ⟨(c2_nec_repeat_amended _ _ _ (by decide) (by decide) (by decide) (by decide) (by decide)
      (by decide)).1 ⟨by decide, by decide⟩,
   (c2_nec_repeat_amended _ _ _ (by decide) (by decide) (by decide) (by decide) (by decide)
      (by decide)).2 (by decide)⟩

/-- C1 counterexample: a 32-bit NEC frame whose timing the decoder
fully accepts but whose command byte fails its complement check
(command 0x0C, ~command 0x0C) makes `decode_nec_protocol` return
ESP_ERR_INVALID_CRC - the decode is aborted, not flagged-and-
succeeded as the claim states. -/
theorem c1_checksum_counterexample :
    (decode_nec_protocol NecState.init 100 (nec_test_frame 0x0C0CFF00)).1 =
      .error .invalidCrc := by decide

/-- C1 (amended): the checksum policy is per-decoder, not uniform.
(1) The Hitachi decoder never aborts on a checksum failure - any
structurally accepted frame decodes to success - but it also records
no flag at all (`flags = 0`); (2) the NEC decoder DOES abort with
ESP_ERR_INVALID_CRC whenever the command byte fails its complement
check; (3) an address-complement failure alone does not abort NEC
decoding: the frame is reinterpreted as NEC Extended with a 16-bit
address and the EXTENDED (not checksum-failed) flag. -/
theorem c1_checksum_policy_amended :
    (∀ (syms : List RmtSymbol) (data : List Nat),
      265 ≤ syms.length → 33 ≤ ((syms.length - 1) / 8) % 256 →
      ir_match_mark (syms.getD 0 default) 3300 0 = true →
      ir_match_space (syms.getD 0 default) 1700 0 = true →
      decode_bytes_lsb syms syms.length true 1 370 1260 370
        (hitachi_num_bytes syms.length) 0 = some data →
      ir_decode_hitachi syms = .ok (hitachi_fill data (hitachi_num_bytes syms.length)) ∧
        (hitachi_fill data (hitachi_num_bytes syms.length)).flags = 0) ∧
    (∀ (st : NecState) (now : Nat) (syms : List RmtSymbol) (data : Nat),
      34 ≤ syms.length →
      timing_matches (syms.getD 0 default).duration0 9000 300 = true →
      timing_matches (syms.getD 0 default).duration1 4500 300 = true →
      nec_decode_bits syms syms.length 32 0 0 = some data →
      ((data >>> 16) &&& 0xFF) ^^^ ((data >>> 24) &&& 0xFF) ≠ 0xFF →
      (decode_nec_protocol st now syms).1 = .error .invalidCrc) ∧
    (∀ (st : NecState) (now : Nat) (syms : List RmtSymbol) (data : Nat),
      34 ≤ syms.length →
      timing_matches (syms.getD 0 default).duration0 9000 300 = true →
      timing_matches (syms.getD 0 default).duration1 4500 300 = true →
      nec_decode_bits syms syms.length 32 0 0 = some data →
      ((data >>> 16) &&& 0xFF) ^^^ ((data >>> 24) &&& 0xFF) = 0xFF →
      ((data &&& 0xFF) ^^^ ((data >>> 8) &&& 0xFF)) ≠ 0xFF →
      (decode_nec_protocol st now syms).1 =
        .ok { IrCode.zero with
              protocol := .nec, data := data, bits := 32,
              address := (data &&& 0xFF) ||| (((data >>> 8) &&& 0xFF) <<< 8),
              command := (data >>> 16) &&& 0xFF,
              flags := IR_FLAG_EXTENDED }) := by
  refine ⟨?_, ?_, ?_⟩
  · intro syms data h265 h33 hm hs hbytes
    have h265' : ¬ (syms.length < 265) := by omega
    have h33' : ¬ (((syms.length - 1) / 8) % 256 < 33) := by omega
    simp only [hitachi_num_bytes] at hbytes
    refine ⟨?_, rfl⟩
    simp only [ir_decode_hitachi, h265', hm, hs, h33', hbytes, Bool.and_self, Bool.not_true,
      if_false, if_true, Bool.false_eq_true, ite_false, ite_true,
      hitachi_num_bytes]
  · intro st now syms data hlen h9 h45 hbits hcrc
    have h34 : ¬ (syms.length < 34) := by omega
    simp only [decode_nec_protocol, h34, h9, h45, hbits, hcrc, Bool.not_true,
      if_false, if_true, Bool.false_eq_true, ite_false, ite_true, ne_eq,
      not_false_eq_true]
  · intro st now syms data hlen h9 h45 hbits hcrc haddr
    have h34 : ¬ (syms.length < 34) := by omega
    simp only [decode_nec_protocol, h34, h9, h45, hbits, hcrc, haddr, Bool.not_true,
      if_false, if_true, Bool.false_eq_true, ite_false, ite_true, ne_eq,
      not_false_eq_true, not_true_eq_false]

/-- C1 witness: a 265-symbol Hitachi frame whose byte-sum checksum
fails (computed 1, received 0) still decodes successfully with
`flags = 0`, while the NEC frame with a broken command complement is
rejected with ESP_ERR_INVALID_CRC. -/
theorem c1_checksum_policy_witness :
    ir_decode_hitachi hitachi_bad_checksum_frame =
      .ok (hitachi_fill (1 :: List.replicate 32 0)
            (hitachi_num_bytes hitachi_bad_checksum_frame.length)) ∧
    hitachi_checksum (1 :: List.replicate 32 0) 33 ≠
      (1 :: List.replicate 32 0).getD 32 0 ∧
    (decode_nec_protocol NecState.init 100 (nec_test_frame 0x0C0CFF00)).1 =
      .error .invalidCrc :=
  ⟨(c1_checksum_policy_amended.1 hitachi_bad_checksum_frame (1 :: List.replicate 32 0)
      (by decide) (by decide) (by decide) (by decide) (by decide)).1,
   by decide,
   c1_checksum_policy_amended.2.1 NecState.init 100 (nec_test_frame 0x0C0CFF00) 0x0C0CFF00
      (by decide) (by decide) (by decide) (by decide) (by decide)⟩

/-- First verification frame: buffered, no acceptance (line 739-748 of
ir_receive_task; the timeout reset is a no-op at idx 0). -/
theorem verify_step_init (c : IrCode) (t : Nat) :
    verify_step VerifyState.init c t = ({ idx := 1, buf := c, lastFrameTime := t }, none) := by
  simp only [verify_step, VerifyState.init]
  split <;> rfl

/-- Second frame matching the buffered one within 500ms: accepted at
once with TWO_FRAMES status (verify_frame_idx reaches 2 and the
`>= 2` acceptance check fires). -/
theorem verify_step_match (buf c : IrCode) (t0 t1 : Nat)
    (h01 : t0 ≤ t1) (h500 : t1 ≤ t0 + 500)
    (ht0 : t0 < 18446744073709551616) (ht1 : t1 < 18446744073709551616)
    (hmatch : ir_codes_match c buf = true) :
    verify_step { idx := 1, buf := buf, lastFrameTime := t0 } c t1 =
      ({ idx := 0, buf := buf, lastFrameTime := t1 },
       some { buf with
              validationStatus := buf.validationStatus ||| IR_VALIDATION_TWO_FRAMES,
              repeatCount := 2 }) := by
  have hmod : (t1 + 18446744073709551616 - t0) % 18446744073709551616 = t1 - t0 := by omega
  have hng : ¬ (500 < t1 - t0) := by omega
  simp only [verify_step, hmod]
  rw [if_neg hng]
  simp [hmatch]

/-- Second frame mismatching the buffered one within 500ms: the
buffer restarts with the new frame, no acceptance. -/
theorem verify_step_mismatch (buf c : IrCode) (t0 t1 : Nat)
    (h01 : t0 ≤ t1) (h500 : t1 ≤ t0 + 500)
    (ht0 : t0 < 18446744073709551616) (ht1 : t1 < 18446744073709551616)
    (hmatch : ir_codes_match c buf = false) :
    verify_step { idx := 1, buf := buf, lastFrameTime := t0 } c t1 =
      ({ idx := 1, buf := c, lastFrameTime := t1 }, none) := by
  have hmod : (t1 + 18446744073709551616 - t0) % 18446744073709551616 = t1 - t0 := by omega
  have hng : ¬ (500 < t1 - t0) := by omega
  simp only [verify_step, hmod]
  rw [if_neg hng]
  simp [hmatch]

/-- Unfolding equation for one learning frame. -/
theorem run_learning_cons (f : IrCode × Nat) (rest : List (IrCode × Nat)) (st : VerifyState) :
    run_learning (f :: rest) st =
      (match verify_step st f.1 f.2 with
       | (st1, none) => run_learning rest st1
       | (_, some v) => some v) := by
  cases f
  rfl

/-- C3 counterexample: three identical frames at t = 0, 100, 200ms
are accepted already at the SECOND frame, with validation status
TWO_FRAMES (0x02), not THREE_FRAMES (0x03): the acceptance check is
`verify_frame_idx >= 2` ("Accept 2 or 3 frames"), learning mode exits
immediately, and the third frame is never part of the episode.  The
claimed ThreeFrames acceptance never happens. -/
theorem c3_verification_counterexample :
    run_learning [(nec_code_A, 0), (nec_code_A, 100), (nec_code_A, 200)] VerifyState.init =
      some { nec_code_A with
             validationStatus := IR_VALIDATION_TWO_FRAMES, repeatCount := 2 } ∧
    IR_VALIDATION_TWO_FRAMES ≠ IR_VALIDATION_THREE_FRAMES := by decide

/-- C3 (amended): in learning mode with inter-frame gaps at most
500ms, (1) two identical frames are accepted at the second frame with
TwoFrames status (ThreeFrames is unreachable: acceptance fires at
`verify_frame_idx = 2` and exits learning); (2) a frame that
mismatches the buffered first frame restarts the verification buffer
with the new frame rather than failing; (3) an episode of three
captures in which no two consecutive frames match ([A, B, A]) is
never accepted. -/
theorem c3_two_frame_verification_amended :
    (∀ (c : IrCode) (t0 t1 : Nat),
      ir_codes_match c c = true → t0 ≤ t1 → t1 ≤ t0 + 500 →
      t0 < 18446744073709551616 → t1 < 18446744073709551616 →
      run_learning [(c, t0), (c, t1)] VerifyState.init =
        some { c with
               validationStatus := c.validationStatus ||| IR_VALIDATION_TWO_FRAMES,
               repeatCount := 2 }) ∧
    (∀ (a b : IrCode) (t0 t1 : Nat),
      ir_codes_match b a = false → t0 ≤ t1 → t1 ≤ t0 + 500 →
      t0 < 18446744073709551616 → t1 < 18446744073709551616 →
      verify_step (verify_step VerifyState.init a t0).1 b t1 =
        ({ idx := 1, buf := b, lastFrameTime := t1 }, none)) ∧
    (∀ (a b : IrCode) (t0 t1 t2 : Nat),
      ir_codes_match b a = false → ir_codes_match a b = false →
      t0 ≤ t1 → t1 ≤ t0 + 500 → t1 ≤ t2 → t2 ≤ t1 + 500 →
      t0 < 18446744073709551616 → t1 < 18446744073709551616 →
      t2 < 18446744073709551616 →
      run_learning [(a, t0), (b, t1), (a, t2)] VerifyState.init = none) := by
  refine ⟨?_, ?_, ?_⟩
  · intro c t0 t1 hmatch h01 h500 ht0 ht1
    rw [run_learning_cons, verify_step_init]
    show run_learning [(c, t1)] { idx := 1, buf := c, lastFrameTime := t0 } = _
    rw [run_learning_cons, verify_step_match c c t0 t1 h01 h500 ht0 ht1 hmatch]
  · intro a b t0 t1 hmatch h01 h500 ht0 ht1
    rw [verify_step_init]
    exact verify_step_mismatch a b t0 t1 h01 h500 ht0 ht1 hmatch
  · intro a b t0 t1 t2 hba hab h01 h500a h12 h500b ht0 ht1 ht2
    rw [run_learning_cons, verify_step_init]
    show run_learning [(b, t1), (a, t2)] { idx := 1, buf := a, lastFrameTime := t0 } = _
    rw [run_learning_cons, verify_step_mismatch a b t0 t1 h01 h500a ht0 ht1 hba]
    show run_learning [(a, t2)] { idx := 1, buf := b, lastFrameTime := t1 } = _
    rw [run_learning_cons, verify_step_mismatch b a t1 t2 h12 h500b ht1 ht2 hab]
    rfl

/-- C3 witness: the amended theorem at two identical NEC frames
(accepted with TwoFrames) and at the A, B, A episode (no
acceptance). -/
theorem c3_two_frame_verification_witness :
    run_learning [(nec_code_A, 0), (nec_code_A, 100)] VerifyState.init =
      some { nec_code_A with
             validationStatus := nec_code_A.validationStatus ||| IR_VALIDATION_TWO_FRAMES,
             repeatCount := 2 } ∧
    run_learning [(nec_code_A, 0), (nec_code_B, 100), (nec_code_A, 200)] VerifyState.init =
      none :=
  ⟨c3_two_frame_verification_amended.1 nec_code_A 0 100 (by decide) (by decide) (by decide)
      (by decide) (by decide),
   c3_two_frame_verification_amended.2.2 nec_code_A nec_code_B 0 100 200 (by decide)
      (by decide) (by decide) (by decide) (by decide) (by decide) (by decide) (by decide)
      (by decide)⟩

/-- C6: on the very same 34-symbol NEC-timed capture (560µs marks,
spaces 560/1690µs, NEC header and stop symbol), the NEC decoder
produces 32 bits 0xF30CFF00 but the universal decoder produces only
31 bits, 0x730CFF00 = 0xF30CFF00 mod 2^31: `num_bits` is computed as
`num_symbols - 2` ("exclude header symbol and stop bit") and then
decremented once more for the pulse-distance stop bit, dropping the
last data bit.  Both bit count and bit pattern differ, contradicting
the claimed equality; the bits that are produced do agree with the
low 31 bits in the same LSB-first order. -/
theorem c6_universal_nec_divergence :
    (decode_nec_protocol NecState.init 0 (nec_test_frame 0xF30CFF00)).1 = .ok nec_code_A ∧
    ir_decode_distance_width (nec_test_frame 0xF30CFF00) =
      .ok { IrCode.zero with protocol := .pulseDistance, data := 0x730CFF00, bits := 31 } ∧
    nec_code_A.bits = 32 ∧ (0x730CFF00 : Nat) = 0xF30CFF00 % 2 ^ 31 ∧ (31 : Nat) ≠ 32 := by
  decide

/-- C9: the Sony SIRC decoder succeeds only for symbol counts 13, 16
or 21, and in every success the `bits` field is exactly the number of
data bits decoded - 12, 15 or 20 - selected purely from the symbol
count; every symbol after the header is a data bit (total = bits + 1),
so no stop bit is consumed.  Conversely any other symbol count is
rejected with ESP_ERR_INVALID_ARG before any timing is examined. -/
theorem c9_sony_variable_bits :
    (∀ (syms : List RmtSymbol) (c : IrCode), ir_decode_sony syms = .ok c →
      (syms.length = 13 ∧ c.bits = 12) ∨ (syms.length = 16 ∧ c.bits = 15) ∨
      (syms.length = 21 ∧ c.bits = 20)) ∧
    (∀ syms : List RmtSymbol, syms.length ≠ 13 → syms.length ≠ 16 → syms.length ≠ 21 →
      ir_decode_sony syms = .error .invalidArg) := by
  have e1613 : ((16 : Nat) = 13) = False := by norm_num
  have e2113 : ((21 : Nat) = 13) = False := by norm_num
  have e2116 : ((21 : Nat) = 16) = False := by norm_num
  have e1313 : ((13 : Nat) = 13) = True := by norm_num
  have e1616 : ((16 : Nat) = 16) = True := by norm_num
  have e2121 : ((21 : Nat) = 21) = True := by norm_num
  constructor
  · intro syms c h
    by_cases h13 : syms.length = 13
    · left
      refine ⟨h13, ?_⟩
      simp only [ir_decode_sony, h13, e1313, if_true] at h
      split_ifs at h <;>
        first
          | exact Except.noConfusion h
          | (cases hd : sony_decode_bits syms 12 0 0 with
             | none => rw [hd] at h; exact Except.noConfusion h
             | some d => rw [hd] at h; simp only [Except.ok.injEq] at h; rw [← h])
    · by_cases h16 : syms.length = 16
      · right; left
        refine ⟨h16, ?_⟩
        simp only [ir_decode_sony, h16, e1613, e1616, if_false, if_true] at h
        split_ifs at h <;>
          first
            | exact Except.noConfusion h
            | (cases hd : sony_decode_bits syms 15 0 0 with
               | none => rw [hd] at h; exact Except.noConfusion h
               | some d => rw [hd] at h; simp only [Except.ok.injEq] at h; rw [← h])
      · by_cases h21 : syms.length = 21
        · right; right
          refine ⟨h21, ?_⟩
          simp only [ir_decode_sony, h21, e2113, e2116, e2121, if_false, if_true] at h
          split_ifs at h <;>
            first
              | exact Except.noConfusion h
              | (cases hd : sony_decode_bits syms 20 0 0 with
                 | none => rw [hd] at h; exact Except.noConfusion h
                 | some d => rw [hd] at h; simp only [Except.ok.injEq] at h; rw [← h])
        · simp only [ir_decode_sony, h13, h16, h21, if_false] at h
          exact Except.noConfusion h
  · intro syms h13 h16 h21
    simp only [ir_decode_sony, h13, h16, h21, if_false]

/-- C9 witness: the theorem applied to a concrete 13-symbol SIRC-12
capture (success, `bits = 12`) and to a 14-symbol capture (rejected
for its symbol count alone). -/
theorem c9_sony_variable_bits_witness :
    ((sony_test_frame.length = 13 ∧
      ({ IrCode.zero with protocol := .sony, data := 0, bits := 12, command := 0, address := 0 } : IrCode).bits = 12) ∨
     (sony_test_frame.length = 16 ∧
      ({ IrCode.zero with protocol := .sony, data := 0, bits := 12, command := 0, address := 0 } : IrCode).bits = 15) ∨
     (sony_test_frame.length = 21 ∧
      ({ IrCode.zero with protocol := .sony, data := 0, bits := 12, command := 0, address := 0 } : IrCode).bits = 20)) ∧
    ir_decode_sony (List.replicate 14 ⟨1, 600, 0, 600⟩) = .error .invalidArg :=
  ⟨c9_sony_variable_bits.1 sony_test_frame
      { IrCode.zero with protocol := .sony, data := 0, bits := 12, command := 0, address := 0 }
      (by decide),
   c9_sony_variable_bits.2 (List.replicate 14 ⟨1, 600, 0, 600⟩) (by decide) (by decide)
      (by decide)⟩

/-- C10: the universal decoder accepts this 43-symbol capture with a
bit count of 40, but `decode_bits` packs the bits into a C uint32_t:
decoded bit 39 (the only set bit, giving the ideal value 2^39) does
not survive the 32-bit data word, which ends up 0.  The claim's
"faithfully represents all of the decoded bits up to the 64-bit
limit, widened as needed" fails for every accepted bit count above
32, even though the decoder's own guard admits up to 64. -/
theorem c10_data_word_truncation :
    ir_decode_distance_width dw_forty_bit_frame =
      .ok { IrCode.zero with protocol := .pulseDistance, data := 0, bits := 40 } ∧
    decode_bits dw_forty_bit_frame 1 1100 false false 40 0 0 = 2 ^ 39 ∧
    2 ^ 39 % 4294967296 = 0 := by decide

/-- A result that is already OK survives the rest of the cascade
untouched. -/
theorem chain_fold_ok (l : List (Except EspErr IrCode)) (c : IrCode) :
    chain_fold (.ok c) l = .ok c := by
  induction l with
  | nil => rfl
  | cons d rest ih => simpa [chain_fold, List.foldl_cons] using ih

/-- The decoder cascade returns the first successful result in list
order. -/
theorem chain_fold_find (rest : List (Except EspErr IrCode)) :
    ∀ (r0 r : Except EspErr IrCode),
      (r0 :: rest).find? isOkB = some r → chain_fold r0 rest = r := by
  induction rest with
  | nil =>
    intro r0 r h
    cases hok : isOkB r0 with
    | true => simp [List.find?_cons_of_pos, hok] at h; rw [← h]; rfl
    | false =>
      have hn : ¬ isOkB r0 = true := by simp [hok]
      rw [List.find?_cons_of_neg _ hn] at h
      exact Option.noConfusion h
  | cons d rest ih =>
    intro r0 r h
    cases r0 with
    | ok c =>
      have : isOkB (Except.ok c) = true := rfl
      rw [List.find?_cons_of_pos _ this] at h
      simp only [Option.some.injEq] at h
      rw [← h]
      exact chain_fold_ok _ c
    | error e =>
      have : ¬ isOkB (Except.error e) = true := by simp [isOkB]
      rw [List.find?_cons_of_neg _ this] at h
      have step : chain_fold (Except.error e) (d :: rest) = chain_fold d rest := rfl
      rw [step]
      exact ih d r h

/-- When every decoder fails, the cascade returns the LAST decoder's
error - earlier errors, including the NEC repeat-with-no-predecessor
ESP_ERR_INVALID_STATE, are overwritten. -/
theorem chain_fold_all_fail (rest : List (Except EspErr IrCode)) :
    ∀ r0 : Except EspErr IrCode,
      (r0 :: rest).find? isOkB = none → chain_fold r0 rest = (r0 :: rest).getLastD r0 := by
  induction rest with
  | nil => intro r0 _; rfl
  | cons d rest ih =>
    intro r0 h
    cases r0 with
    | ok c =>
      have : isOkB (Except.ok c) = true := rfl
      rw [List.find?_cons_of_pos _ this] at h
      exact absurd h (by simp)
    | error e =>
      have hn : ¬ isOkB (Except.error e) = true := by simp [isOkB]
      rw [List.find?_cons_of_neg _ hn] at h
      have step : chain_fold (Except.error e) (d :: rest) = chain_fold d rest := rfl
      rw [step, ih d h]
      rfl

/-- C7 counterexample: a 34-symbol capture beginning with the NEC
repeat header, received with no usable predecessor (initial state):
the NEC decoder returns ESP_ERR_INVALID_STATE - not NOT_SUPPORTED -
so nothing short-circuits; every later decoder fails, the universal
decoder's ESP_FAIL ends up as the chain result, and the capture IS
delivered as a Raw code, contradicting the claim that such a capture
is never stored or delivered as Raw. -/
theorem c7_dispatch_counterexample :
    (decode_nec_protocol NecState.init 1000 nec_repeat_frame_padded).1 =
      .error .invalidState ∧
    (ir_receive_process NecState.init 1000 nec_repeat_frame_padded).1 =
      .delivered { IrCode.zero with
                   protocol := .raw, rawData := nec_repeat_frame_padded, rawLength := 34 } := by
  decide

/-- C7 (amended): the decoders are tried in the fixed priority order
of `decoder_chain_rest` (NEC on the processed symbols first, then the
consumer, extended, AC, exotic tiers and the universal decoder last,
each on the raw capture), and the first success wins: the cascade
result is the first OK entry, and when all fail it is the LAST
decoder's error.  Consequently the NOT_SUPPORTED short-circuit at the
end of the chain is unreachable for a NEC repeat with no predecessor
(which yields ESP_ERR_INVALID_STATE and is overwritten downstream):
such a capture falls through to Raw delivery. -/
theorem c7_dispatch_order_amended :
    (∀ (r0 r : Except EspErr IrCode) (rest : List (Except EspErr IrCode)),
      (r0 :: rest).find? isOkB = some r → chain_fold r0 rest = r) ∧
    (∀ (r0 : Except EspErr IrCode) (rest : List (Except EspErr IrCode)),
      (r0 :: rest).find? isOkB = none → chain_fold r0 rest = (r0 :: rest).getLastD r0) ∧
    (∀ (st : NecState) (now : Nat) (processed received : List RmtSymbol),
      ir_tiered_dispatch st now processed received =
        (chain_fold (decode_nec_protocol st now processed).1 (decoder_chain_rest received),
         (decode_nec_protocol st now processed).2)) ∧
    (ir_receive_process NecState.init 1000 nec_repeat_frame_padded).1 =
      .delivered { IrCode.zero with
                   protocol := .raw, rawData := nec_repeat_frame_padded, rawLength := 34 } :=
  ⟨fun r0 r rest h => chain_fold_find rest r0 r h,
   fun r0 rest h => chain_fold_all_fail rest r0 h,
   fun _ _ _ _ => rfl,
   by decide⟩

/-- C7 witness: the first-success and all-fail clauses of the amended
theorem applied to concrete cascades. -/
theorem c7_dispatch_order_witness :
    chain_fold (.error .fail) [.ok IrCode.zero, .error .invalidArg] = .ok IrCode.zero ∧
    chain_fold (.error .invalidState) [.error .invalidArg, .error .fail] = .error .fail :=
  ⟨c7_dispatch_order_amended.1 (.error .fail) (.ok IrCode.zero)
      [.ok IrCode.zero, .error .invalidArg] (by decide),
   c7_dispatch_order_amended.2.1 (.error .invalidState) [.error .invalidArg, .error .fail]
      (by decide)⟩

/-- Bit 0 of Carrier byte 3 is exactly the power bit: masking it away
removes the power dependence. -/
theorem carrier_power_mask_bit (pb : Bool) (mb : AcMode) :
    ((if pb = true then 1 else 0) ||| carrier_mode_bits mb <<< 1) &&& (255 ^^^ 1) =
    carrier_mode_bits mb <<< 1 &&& (255 ^^^ 1) := by
  cases pb <;> cases mb <;> decide

/-- Bits 1-3 of Carrier byte 3 are exactly the mode bits: masking them
away removes the mode dependence. -/
theorem carrier_mode_mask_bits (pb : Bool) (mb : AcMode) :
    ((if pb = true then 1 else 0) ||| carrier_mode_bits mb <<< 1) &&& (255 ^^^ 14) =
    ((if pb = true then 1 else 0) ||| carrier_mode_bits AcMode.off <<< 1) &&& (255 ^^^ 14) := by
  cases pb <;> cases mb <;> decide

/-- Erasing a field leaves the frame bytes outside that field's
assigned bits unchanged. -/
theorem carrier_mask_outside_erase (f : AcField) (s : AcState) :
    carrier_mask_outside f (carrier_frame_bytes s) =
    carrier_mask_outside f (carrier_frame_bytes (eraseField f s)) := by
  obtain ⟨p, m, tc, fs, sw, tb, q, ec, cl, sl, st, d, b, fi, l, af, acn, cm, pr, pv, il, br, mo⟩ := s
  cases f
  case power =>
    simp only [carrier_mask_outside, carrier_frame_bytes, carrier_assigned_mask, eraseField,
      carrier_byte3, carrier_byte4, carrier_byte6,
      List.range_succ, List.range_zero, List.map_append, List.map_cons, List.map_nil,
      List.cons_append, List.nil_append, List.getD_cons_zero, List.getD_cons_succ]
    norm_num
    exact carrier_power_mask_bit p m
  case mode =>
    simp only [carrier_mask_outside, carrier_frame_bytes, carrier_assigned_mask, eraseField,
      carrier_byte3, carrier_byte4, carrier_byte6,
      List.range_succ, List.range_zero, List.map_append, List.map_cons, List.map_nil,
      List.cons_append, List.nil_append, List.getD_cons_zero, List.getD_cons_succ]
    norm_num
    exact carrier_mode_mask_bits p m
  case temperature =>
    simp only [carrier_mask_outside, carrier_frame_bytes, carrier_assigned_mask, eraseField,
      List.range_succ, List.range_zero, List.map_append, List.map_cons, List.map_nil,
      List.cons_append, List.nil_append, List.getD_cons_zero, List.getD_cons_succ]
    norm_num
    all_goals first | exact rfl | exact ⟨rfl, rfl⟩ | exact ⟨rfl, rfl, rfl⟩ | exact ⟨rfl, rfl, rfl, rfl⟩
  case fan_speed =>
    simp only [carrier_mask_outside, carrier_frame_bytes, carrier_assigned_mask, eraseField,
      List.range_succ, List.range_zero, List.map_append, List.map_cons, List.map_nil,
      List.cons_append, List.nil_append, List.getD_cons_zero, List.getD_cons_succ]
    norm_num
    all_goals first | exact rfl | exact ⟨rfl, rfl⟩ | exact ⟨rfl, rfl, rfl⟩ | exact ⟨rfl, rfl, rfl, rfl⟩
  case swing =>
    simp only [carrier_mask_outside, carrier_frame_bytes, carrier_assigned_mask, eraseField,
      List.range_succ, List.range_zero, List.map_append, List.map_cons, List.map_nil,
      List.cons_append, List.nil_append, List.getD_cons_zero, List.getD_cons_succ]
    norm_num
    all_goals first | exact rfl | exact ⟨rfl, rfl⟩ | exact ⟨rfl, rfl, rfl⟩ | exact ⟨rfl, rfl, rfl, rfl⟩
  case turbo =>
    simp only [carrier_mask_outside, carrier_frame_bytes, carrier_assigned_mask, eraseField,
      List.range_succ, List.range_zero, List.map_append, List.map_cons, List.map_nil,
      List.cons_append, List.nil_append, List.getD_cons_zero, List.getD_cons_succ]
    norm_num
    all_goals first | exact rfl | exact ⟨rfl, rfl⟩ | exact ⟨rfl, rfl, rfl⟩ | exact ⟨rfl, rfl, rfl, rfl⟩
  case sleep =>
    simp only [carrier_mask_outside, carrier_frame_bytes, carrier_assigned_mask, eraseField,
      List.range_succ, List.range_zero, List.map_append, List.map_cons, List.map_nil,
      List.cons_append, List.nil_append, List.getD_cons_zero, List.getD_cons_succ]
    norm_num
    all_goals first | exact rfl | exact ⟨rfl, rfl⟩ | exact ⟨rfl, rfl, rfl⟩ | exact ⟨rfl, rfl, rfl, rfl⟩
  case econo =>
    simp only [carrier_mask_outside, carrier_frame_bytes, carrier_assigned_mask, eraseField,
      List.range_succ, List.range_zero, List.map_append, List.map_cons, List.map_nil,
      List.cons_append, List.nil_append, List.getD_cons_zero, List.getD_cons_succ]
    norm_num
    all_goals first | exact rfl | exact ⟨rfl, rfl⟩ | exact ⟨rfl, rfl, rfl⟩ | exact ⟨rfl, rfl, rfl, rfl⟩
  all_goals exact rfl

/-- The start-of-loop checksum of `calculate_nibble_checksum` agrees
with the plain nibble-sum-mod-16 on the 15-byte Carrier data layout. -/
theorem carrier_nibble_checksum_eq (b3 b4 b5 b6 b7 b8 b9 : Nat) :
    calculate_nibble_checksum [0xB2, 0x4D, 0, b3, b4, b5, b6, b7, b8, b9, 0, 0, 0, 0, 0] 15 =
    nibble_sum_mod16 [0xB2, 0x4D, 0, b3, b4, b5, b6, b7, b8, b9, 0, 0, 0, 0, 0] := by
  have hand : ∀ b : Nat, b &&& 15 = b % 16 := by
    intro b
    have h := Nat.and_pow_two_sub_one_eq_mod b 4
    norm_num at h
    exact h
  have hshift : ∀ b : Nat, b >>> 4 = b / 16 := by
    intro b
    rw [Nat.shiftRight_eq_div_pow]
  simp only [calculate_nibble_checksum, nibble_sum_mod16, List.range_succ, List.range_zero,
    List.foldl_append, List.foldl_cons, List.foldl_nil, List.map_cons, List.map_nil,
    List.sum_cons, List.sum_nil, List.getD_cons_zero, List.getD_cons_succ, hand, hshift]
  omega

/-- C8: two states whose erasures at field `f` agree (i.e. that can
differ only in `f`) produce Carrier frames that agree on every bit of
bytes 0-14 outside the layout mask assigned to `f` (only assigned
bits plus the checksum byte 15 may change); in every encoded frame
byte 15 equals the nibble-sum-mod-16 of bytes 0-14; and the whole
16-byte frame and its timing buffer are regenerated from the full
state on every encode. -/
theorem c8_carrier_encoder (f : AcField) (s1 s2 : AcState)
    (h : eraseField f s1 = eraseField f s2) :
    carrier_mask_outside f (ir_ac_encode_carrier s1).frame =
      carrier_mask_outside f (ir_ac_encode_carrier s2).frame ∧
    (∀ s : AcState, ((ir_ac_encode_carrier s).frame).getD 15 0 =
      nibble_sum_mod16 (((ir_ac_encode_carrier s).frame).take 15)) ∧
    (∀ s : AcState, (ir_ac_encode_carrier s).frame.length = 16 ∧
      (ir_ac_encode_carrier s).frame = carrier_frame_bytes s ∧
      (ir_ac_encode_carrier s).raw_timings =
        encode_bytes_to_timings_lsb (carrier_frame_bytes s) 560 1690 560) := by
  refine ⟨?_, ?_, ?_⟩
  · show carrier_mask_outside f (carrier_frame_bytes s1) =
      carrier_mask_outside f (carrier_frame_bytes s2)
    rw [carrier_mask_outside_erase f s1, carrier_mask_outside_erase f s2, h]
  · intro s
    exact carrier_nibble_checksum_eq (carrier_byte3 s) (carrier_byte4 s)
      (carrier_fan_bits s.fan_speed) (carrier_byte6 s)
      (if s.turbo then 1 else 0) (if s.sleep then 1 else 0) (if s.econo then 1 else 0)
  · intro s
    exact ⟨rfl, rfl, rfl⟩

/-- Witness for C8: `ac_state_base` and its power-toggled variant
erase to the same state at the power field, and their frames agree
outside the power bit. -/
theorem c8_carrier_encoder_witness :
    eraseField AcField.power ac_state_base = eraseField AcField.power ac_state_base_off ∧
    carrier_mask_outside AcField.power (ir_ac_encode_carrier ac_state_base).frame =
      carrier_mask_outside AcField.power (ir_ac_encode_carrier ac_state_base_off).frame :=
  ⟨rfl, (c8_carrier_encoder AcField.power ac_state_base ac_state_base_off rfl).1⟩
